import Mathlib

/-!
Verification of the nanobot configuration loader
(src/nanobot/config/loader.py) and the BigQuery tool
(src/nanobot/agent/tools/bigquery.py).

The Python code is shallowly embedded: pure string helpers become Lean
functions on `List Char` (with `String` wrappers), JSON documents become an
inductive `Json` tree whose objects are insertion-ordered association lists
(matching Python dicts after `json.loads`), fallible Python code returns
`Except PyErr`, and the ambient process state (environment variables, file
system, the JSON parser of the standard library) is a record of functions.
All character-level functions model Python string methods on ASCII input,
which is the domain the configuration keys live in; Lean's `Char.toLower`,
`Char.isUpper`, etc. agree with Python's on that range.

The configuration schema (nanobot/config/schema.py) is not part of the
sources; it is modelled from the specification where needed and each such
definition is marked accordingly.
-/

/-! ## Python string primitives (ASCII model) -/
/-- Model of Python str.title character scan: a cased character starting a
word (i.e. not preceded by an alphabetic character) is uppercased, other
cased characters are lowercased, non-alphabetic characters pass through.
The Boolean argument records whether the previous character was alphabetic. -/
def titleAux : Bool → List Char → List Char
  | _, [] => []
  | prevAlpha, c :: rest =>
    (if c.isAlpha then (if prevAlpha then c.toLower else c.toUpper) else c)
      :: titleAux c.isAlpha rest

/-- Model of Python str.title on a list of characters. -/
def pyTitle (cs : List Char) : List Char := titleAux false cs

/-- Model of Python name.split on the underscore separator: adjacent
separators and separators at either end produce empty components, exactly
as in Python. -/
def splitU : List Char → List (List Char)
  | [] => [[]]
  | c :: rest =>
    if c = '_' then [] :: splitU rest
    else
      match splitU rest with
      | g :: gs => (c :: g) :: gs
      | [] => [[c]]

/-- Tail of camel_to_snake from loader.py: every character from index one
onwards is lowercased, with an underscore inserted before each uppercase
character. -/
def c2sAux : List Char → List Char
  | [] => []
  | c :: rest =>
    (if c.isUpper then ['_', c.toLower] else [c.toLower]) ++ c2sAux rest

/-- camel_to_snake from loader.py on a list of characters: the character at
index zero is lowercased but never preceded by an underscore (the source
checks i > 0). -/
def camelToSnakeL : List Char → List Char
  | [] => []
  | c :: rest => c.toLower :: c2sAux rest

/-- snake_to_camel from loader.py on a list of characters: split on
underscores, keep the first component verbatim, and append the Python
title() of every later component. -/
def snakeToCamelL (cs : List Char) : List Char :=
  match splitU cs with
  | [] => []
  | g :: gs => g ++ (gs.map pyTitle).flatten

/-- camel_to_snake from loader.py. -/
def camel_to_snake (s : String) : String := ⟨camelToSnakeL s.data⟩

/-- snake_to_camel from loader.py. -/
def snake_to_camel (s : String) : String := ⟨snakeToCamelL s.data⟩

/-! ## Round-trip machinery for the key-case transforms -/
/-- Keys with no two adjacent uppercase characters (the restriction stated
by the specification for round-tripping). -/
def noAdjUpper : List Char → Bool
  | c :: d :: rest => !(c.isUpper && d.isUpper) && noAdjUpper (d :: rest)
  | _ => true

/-- Scan over the region of a key at or after its first uppercase
character. The Boolean state records whether the previous character was
alphabetic; a lowercase letter immediately preceded by a digit in this
region is rejected, because Python str.title would uppercase it. -/
def postOk : Bool → List Char → Bool
  | _, [] => true
  | pa, c :: rest =>
    if c.isUpper then postOk true rest
    else if c.isLower then pa && postOk true rest
    else postOk false rest

/-- Scan over the tail of a key before its first uppercase character; once
an uppercase character is seen the scan switches to postOk. -/
def preOk : List Char → Bool
  | [] => true
  | c :: rest => if c.isUpper then postOk true rest else preOk rest

/-- Keys for which the camel-to-snake-to-camel round trip is the identity:
ASCII letters and digits only, no two adjacent uppercase characters, not
beginning with an uppercase letter, and no lowercase letter immediately
preceded by a digit at or after the first uppercase letter. -/
def roundOkL (k : List Char) : Bool :=
  k.all (fun c => c.isUpper || c.isLower || c.isDigit) && noAdjUpper k &&
    (match k with
     | [] => true
     | c :: rest => !c.isUpper && preOk rest)

/-- String-level wrapper of roundOkL. -/
def roundOk (s : String) : Bool := roundOkL s.data

/-- Reassembly of a snake string by snake_to_camel: first component
verbatim, later components titled. -/
def glueB (cs : List Char) : List Char :=
  match splitU cs with
  | [] => []
  | g :: gs => g ++ (gs.map pyTitle).flatten

/-- Reassembly of a snake string inside the titled region, with the given
title-scan state applied to the first component. -/
def glueC (pa : Bool) (cs : List Char) : List Char :=
  match splitU cs with
  | [] => []
  | g :: gs => titleAux pa g ++ (gs.map pyTitle).flatten

/-! ## JSON documents and Python dict primitives -/
/-- A JSON value as produced by json.loads: objects are insertion-ordered
association lists whose keys are unique, exactly like Python dicts. -/
inductive Json where
  | null : Json
  | bool (b : Bool) : Json
  | num (n : Int) : Json
  | str (s : String) : Json
  | arr (xs : List Json) : Json
  | obj (kvs : List (String × Json)) : Json
  deriving Repr

/-- Python exceptions relevant to the embedded code, grouped by the classes
the loader's except clauses distinguish. JSONDecodeError and pydantic
ValidationError are modelled structurally (parse results and validation
results are Options), so only the uncaught classes appear here. -/
inductive PyErr where
  | attributeError : PyErr
  | typeError : PyErr
  | keyError : PyErr
  | oserror : PyErr
  deriving DecidableEq, Repr

/-- Python dict lookup d.get(k) on an association list. -/
def jLookup (k : String) : List (String × Json) → Option Json
  | [] => none
  | (k', v) :: rest => if k' = k then some v else jLookup k rest

/-- Python dict membership test k in d. -/
def jHasKey (k : String) : List (String × Json) → Bool
  | [] => false
  | (k', _) :: rest => k' = k || jHasKey k rest

/-- Python dict assignment d[k] = v: replace in place when the key exists,
otherwise append at the end, preserving insertion order. -/
def jSet (k : String) (v : Json) : List (String × Json) → List (String × Json)
  | [] => [(k, v)]
  | (k', v') :: rest => if k' = k then (k, v) :: rest else (k', v') :: jSet k v rest

/-- Removal of a key from a Python dict, preserving the order of the
remaining entries. -/
def jErase (k : String) : List (String × Json) → List (String × Json)
  | [] => []
  | (k', v') :: rest => if k' = k then rest else (k', v') :: jErase k rest

/-- Substring test, modelling the Python expression needle in haystack for
strings. -/
def hasSubstr (needle hay : List Char) : Bool :=
  hay.tails.any fun t => needle.isPrefixOf t

/-- The Python expression k in x for a string k and a JSON value x: key
membership for dicts, element equality for lists, substring test for
strings, and a TypeError for non-iterable values. -/
def pyIn (k : String) : Json → Except PyErr Bool
  | .obj kvs => .ok (jHasKey k kvs)
  | .arr xs => .ok (xs.any fun x => match x with | .str s => s = k | _ => false)
  | .str s => .ok (hasSubstr k.data s.data)
  | _ => .error .typeError

/-- The Python expression x.pop(k) for a string k: for dicts it removes and
returns the value; strings have no pop attribute, and list.pop rejects a
string index with a TypeError. -/
def pyPop (k : String) : Json → Except PyErr (Json × Json)
  | .obj kvs =>
    match jLookup k kvs with
    | some v => .ok (v, .obj (jErase k kvs))
    | none => .error .keyError
  | .arr _ => .error .typeError
  | _ => .error .attributeError

/-- Rebuild of a Python dict from a sequence of key-value pairs, as a dict
comprehension does: entries are inserted left to right, so a repeated key
keeps its first position but its last value. -/
def dictOfPairs (l : List (String × Json)) : List (String × Json) :=
  l.foldl (fun acc p => jSet p.1 p.2 acc) []

mutual
/-- convert_keys from loader.py: recursively rewrite every mapping key from
camelCase to snake_case, descending into values and into sequences; scalars
pass through unchanged. -/
def convert_keys : Json → Json
  | .obj kvs => .obj (dictOfPairs (convertPairsCK kvs))
  | .arr xs => .arr (convertListCK xs)
  | x => x

/-- Key conversion of convert_keys mapped over the items of a dict. -/
def convertPairsCK : List (String × Json) → List (String × Json)
  | [] => []
  | (k, v) :: rest => (camel_to_snake k, convert_keys v) :: convertPairsCK rest

/-- convert_keys mapped over the elements of a sequence. -/
def convertListCK : List Json → List Json
  | [] => []
  | x :: rest => convert_keys x :: convertListCK rest
end

mutual
/-- convert_to_camel from loader.py: recursively rewrite every mapping key
from snake_case to camelCase. -/
def convert_to_camel : Json → Json
  | .obj kvs => .obj (dictOfPairs (convertPairsCC kvs))
  | .arr xs => .arr (convertListCC xs)
  | x => x

/-- Key conversion of convert_to_camel mapped over the items of a dict. -/
def convertPairsCC : List (String × Json) → List (String × Json)
  | [] => []
  | (k, v) :: rest => (snake_to_camel k, convert_to_camel v) :: convertPairsCC rest

/-- convert_to_camel mapped over the elements of a sequence. -/
def convertListCC : List Json → List Json
  | [] => []
  | x :: rest => convert_to_camel x :: convertListCC rest
end

/-- migrate_config from loader.py (written there with a leading
underscore): move tools.exec.restrictToWorkspace to
tools.restrictToWorkspace when the nested key is present and the top-level
key absent. Every attribute access and membership test of the Python code
is modelled, so documents of the wrong shape raise exactly where Python
does: data.get on a non-dict and tools.get on a non-dict raise
AttributeError, and the membership test on a non-iterable raises TypeError. -/
def migrate_config (data : Json) : Except PyErr Json :=
  match data with
  | Json.obj kvs =>
    let tools := (jLookup "tools" kvs).getD (Json.obj [])
    match tools with
    | Json.obj tkvs =>
      let execCfg := (jLookup "exec" tkvs).getD (Json.obj [])
      match pyIn "restrictToWorkspace" execCfg with
      | .error e => .error e
      | .ok inExec =>
        if inExec && !jHasKey "restrictToWorkspace" tkvs then
          match pyPop "restrictToWorkspace" execCfg with
          | .error e => .error e
          | .ok (v, exec') =>
            let tkvs' := jSet "exec" exec' tkvs
            let tkvs'' := jSet "restrictToWorkspace" v tkvs'
            .ok (Json.obj (jSet "tools" (Json.obj tkvs'') kvs))
        else .ok data
    | _ => .error .attributeError
  | _ => .error .attributeError

/-! ## The configuration schema, modelled from the specification -/
/-- Modelled from the spec: nanobot/config/schema.py is not among the
sources. A provider section carries an API key, absent by default. -/
structure ProviderConfig where
  api_key : Option String
  deriving DecidableEq, Repr

/-- Modelled from the spec: the provider sections named by the override
table of the loader. -/
structure ProvidersConfig where
  groq : ProviderConfig
  openrouter : ProviderConfig
  openai : ProviderConfig
  anthropic : ProviderConfig
  deepseek : ProviderConfig
  gemini : ProviderConfig
  zhipu : ProviderConfig
  deriving DecidableEq, Repr

/-- Modelled from the spec: agent defaults carry a model and a workspace. -/
structure AgentDefaultsConfig where
  model : String
  workspace : String
  deriving DecidableEq, Repr

/-- Modelled from the spec: the agents section. -/
structure AgentsConfig where
  defaults : AgentDefaultsConfig
  deriving DecidableEq, Repr

/-- Modelled from the spec: a channel has an enabled flag, a token and an
allow list. -/
structure ChannelConfig where
  enabled : Bool
  token : String
  allow_from : List String
  deriving DecidableEq, Repr

/-- Modelled from the spec: the channel sections the loader mentions. -/
structure ChannelsConfig where
  telegram : ChannelConfig
  whatsapp : ChannelConfig
  deriving DecidableEq, Repr

/-- Modelled from the spec: the web-search tool configuration. -/
structure WebSearchConfig where
  api_key : Option String
  deriving DecidableEq, Repr

/-- Modelled from the spec: the web tools section. -/
structure WebToolsConfig where
  search : WebSearchConfig
  deriving DecidableEq, Repr

/-- Modelled from the spec: the tools section, with the top-level
workspace-restriction flag targeted by migration. -/
structure ToolsConfig where
  restrict_to_workspace : Bool
  web : WebToolsConfig
  deriving DecidableEq, Repr

/-- Modelled from the spec: the typed configuration object. -/
structure Config where
  providers : ProvidersConfig
  agents : AgentsConfig
  channels : ChannelsConfig
  tools : ToolsConfig
  deriving DecidableEq, Repr

/-- Modelled from the spec: the all-defaults provider section. -/
def ProviderConfig.default : ProviderConfig := { api_key := none }

/-- Modelled from the spec: the all-defaults channel section. -/
def ChannelConfig.default : ChannelConfig :=
  { enabled := false, token := "", allow_from := [] }

/-- Modelled from the spec: the all-defaults Config produced by the
zero-argument constructor; absent optional fields carry defaults. -/
def Config.default : Config :=
  { providers :=
      { groq := ProviderConfig.default, openrouter := ProviderConfig.default,
        openai := ProviderConfig.default, anthropic := ProviderConfig.default,
        deepseek := ProviderConfig.default, gemini := ProviderConfig.default,
        zhipu := ProviderConfig.default },
    agents := { defaults := { model := "", workspace := "" } },
    channels := { telegram := ChannelConfig.default, whatsapp := ChannelConfig.default },
    tools := { restrict_to_workspace := true,
               web := { search := { api_key := none } } } }

/-- Validation of a string field. -/
def vStr : Json → Option String
  | .str s => some s
  | _ => none

/-- Validation of an optional string field; JSON null is accepted and means
absent. -/
def vOptStr : Json → Option (Option String)
  | .null => some none
  | .str s => some (some s)
  | _ => none

/-- Validation of a Boolean field. -/
def vBool : Json → Option Bool
  | .bool b => some b
  | _ => none

/-- Validation of a list-of-strings field. -/
def vStrList : Json → Option (List String)
  | .arr xs => xs.mapM vStr
  | _ => none

/-- Validation of one field of a section: an absent key yields the default,
a present key must parse. -/
def vField {α : Type} (kvs : List (String × Json)) (k : String) (d : α)
    (p : Json → Option α) : Option α :=
  match jLookup k kvs with
  | none => some d
  | some j => p j

/-- Modelled from the spec: validation of a provider section. Unrecognized
keys are ignored, absent fields carry defaults, a structurally wrong field
is a validation error. -/
def ProviderConfig.validate : Json → Option ProviderConfig
  | .obj kvs => (vField kvs "api_key" none vOptStr).map fun a => { api_key := a }
  | _ => none

/-- Modelled from the spec: validation of the providers section. -/
def ProvidersConfig.validate : Json → Option ProvidersConfig
  | .obj kvs => do
    let g ← vField kvs "groq" ProviderConfig.default ProviderConfig.validate
    let orr ← vField kvs "openrouter" ProviderConfig.default ProviderConfig.validate
    let oai ← vField kvs "openai" ProviderConfig.default ProviderConfig.validate
    let ant ← vField kvs "anthropic" ProviderConfig.default ProviderConfig.validate
    let ds ← vField kvs "deepseek" ProviderConfig.default ProviderConfig.validate
    let gm ← vField kvs "gemini" ProviderConfig.default ProviderConfig.validate
    let zp ← vField kvs "zhipu" ProviderConfig.default ProviderConfig.validate
    some { groq := g, openrouter := orr, openai := oai, anthropic := ant,
           deepseek := ds, gemini := gm, zhipu := zp }
  | _ => none

/-- Modelled from the spec: validation of the agent defaults section. -/
def AgentDefaultsConfig.validate : Json → Option AgentDefaultsConfig
  | .obj kvs => do
    let m ← vField kvs "model" "" vStr
    let w ← vField kvs "workspace" "" vStr
    some { model := m, workspace := w }
  | _ => none

/-- Modelled from the spec: validation of the agents section. -/
def AgentsConfig.validate : Json → Option AgentsConfig
  | .obj kvs => do
    let d ← vField kvs "defaults" { model := "", workspace := "" }
      AgentDefaultsConfig.validate
    some { defaults := d }
  | _ => none

/-- Modelled from the spec: validation of one channel section. -/
def ChannelConfig.validate : Json → Option ChannelConfig
  | .obj kvs => do
    let e ← vField kvs "enabled" false vBool
    let t ← vField kvs "token" "" vStr
    let a ← vField kvs "allow_from" [] vStrList
    some { enabled := e, token := t, allow_from := a }
  | _ => none

/-- Modelled from the spec: validation of the channels section. -/
def ChannelsConfig.validate : Json → Option ChannelsConfig
  | .obj kvs => do
    let t ← vField kvs "telegram" ChannelConfig.default ChannelConfig.validate
    let w ← vField kvs "whatsapp" ChannelConfig.default ChannelConfig.validate
    some { telegram := t, whatsapp := w }
  | _ => none

/-- Modelled from the spec: validation of the web-search tool section. -/
def WebSearchConfig.validate : Json → Option WebSearchConfig
  | .obj kvs => (vField kvs "api_key" none vOptStr).map fun a => { api_key := a }
  | _ => none

/-- Modelled from the spec: validation of the web tools section. -/
def WebToolsConfig.validate : Json → Option WebToolsConfig
  | .obj kvs => do
    let s ← vField kvs "search" { api_key := none } WebSearchConfig.validate
    some { search := s }
  | _ => none

/-- Modelled from the spec: validation of the tools section. -/
def ToolsConfig.validate : Json → Option ToolsConfig
  | .obj kvs => do
    let r ← vField kvs "restrict_to_workspace" true vBool
    let w ← vField kvs "web" { search := { api_key := none } } WebToolsConfig.validate
    some { restrict_to_workspace := r, web := w }
  | _ => none

/-- Modelled from the spec: Config.model_validate. It takes a normalized
raw document and produces a typed Config or fails with a structural error;
unrecognized fields are discarded, absent fields carry defaults. A
validation failure is a pydantic ValidationError, a subclass of ValueError,
which the loader catches, so failure is modelled as none. -/
def Config.model_validate : Json → Option Config
  | .obj kvs => do
    let p ← vField kvs "providers" Config.default.providers ProvidersConfig.validate
    let a ← vField kvs "agents" Config.default.agents AgentsConfig.validate
    let c ← vField kvs "channels" Config.default.channels ChannelsConfig.validate
    let t ← vField kvs "tools" Config.default.tools ToolsConfig.validate
    some { providers := p, agents := a, channels := c, tools := t }
  | _ => none

/-- Option String rendered as a JSON value. -/
def optStrJson : Option String → Json
  | none => .null
  | some s => .str s

/-- Modelled from the spec: config.model_dump() — the full field
representation with the internal snake_case field names, defaulted fields
included, none omitted. -/
def Config.model_dump (c : Config) : Json :=
  Json.obj
    [("providers", Json.obj
        [("groq", Json.obj [("api_key", optStrJson c.providers.groq.api_key)]),
         ("openrouter", Json.obj [("api_key", optStrJson c.providers.openrouter.api_key)]),
         ("openai", Json.obj [("api_key", optStrJson c.providers.openai.api_key)]),
         ("anthropic", Json.obj [("api_key", optStrJson c.providers.anthropic.api_key)]),
         ("deepseek", Json.obj [("api_key", optStrJson c.providers.deepseek.api_key)]),
         ("gemini", Json.obj [("api_key", optStrJson c.providers.gemini.api_key)]),
         ("zhipu", Json.obj [("api_key", optStrJson c.providers.zhipu.api_key)])]),
     ("agents", Json.obj
        [("defaults", Json.obj
            [("model", Json.str c.agents.defaults.model),
             ("workspace", Json.str c.agents.defaults.workspace)])]),
     ("channels", Json.obj
        [("telegram", Json.obj
            [("enabled", Json.bool c.channels.telegram.enabled),
             ("token", Json.str c.channels.telegram.token),
             ("allow_from", Json.arr (c.channels.telegram.allow_from.map Json.str))]),
         ("whatsapp", Json.obj
            [("enabled", Json.bool c.channels.whatsapp.enabled),
             ("token", Json.str c.channels.whatsapp.token),
             ("allow_from", Json.arr (c.channels.whatsapp.allow_from.map Json.str))])]),
     ("tools", Json.obj
        [("restrict_to_workspace", Json.bool c.tools.restrict_to_workspace),
         ("web", Json.obj
            [("search", Json.obj
                [("api_key", optStrJson c.tools.web.search.api_key)])])])]

/-! ## Process state and environment-variable helpers -/
/-- State of one path in the file system: missing, existing but not
readable (open raises OSError), or readable with the given text content. -/
inductive FileState where
  | absent : FileState
  | unreadable : FileState
  | readable (content : String) : FileState
  deriving DecidableEq, Repr

/-- The ambient process state: environment variables, the file system, the
behavior of json.loads of the standard library on text (none models
JSONDecodeError, which also covers an empty file), the home directory, and
which paths the file system lets save_config create and write. -/
structure SysState where
  env : String → Option String
  fs : String → FileState
  jparse : String → Option Json
  home : String
  writable : String → Bool

/-- Python truthiness of os.environ.get(v): an unset variable and an empty
string are both falsy. -/
def truthyGet (env : String → Option String) (v : String) : Option String :=
  match env v with
  | some s => if s = "" then none else some s
  | none => none

/-- The Python expression a or b over two optional strings that have
already been filtered for truthiness: the first truthy operand wins. -/
def orTruthy (a b : Option String) : Option String :=
  match a with
  | some s => some s
  | none => b

/-- Python whitespace characters stripped by str.strip without arguments
(ASCII model). -/
def isPySpace (c : Char) : Bool :=
  c = ' ' || c = '\t' || c = '\n' || c = '\r' || c = '\x0b' || c = '\x0c'

/-- Model of Python str.strip without arguments. -/
def pyStrip (s : String) : String :=
  ⟨((s.data.dropWhile isPySpace).reverse.dropWhile isPySpace).reverse⟩

/-- Model of Python str.lower on ASCII text. -/
def pyLowerStr (s : String) : String := ⟨s.data.map Char.toLower⟩

/-- get_config_path from loader.py: the default home-directory
configuration path. -/
def get_config_path (home : String) : String := home ++ "/.nanobot/config.json"

/-! ## Environment overrides (apply_env_overrides from loader.py) -/
/-- The GROQ_API_KEY / LITELLM_GROQ_API_KEY block of apply_env_overrides. -/
def ovGroq (env : String → Option String) (c : Config) : Config :=
  match orTruthy (truthyGet env "GROQ_API_KEY") (truthyGet env "LITELLM_GROQ_API_KEY") with
  | some key => { c with providers := { c.providers with
      groq := { c.providers.groq with api_key := some key } } }
  | none => c

/-- The OPENROUTER_API_KEY block of apply_env_overrides. -/
def ovOpenrouter (env : String → Option String) (c : Config) : Config :=
  match truthyGet env "OPENROUTER_API_KEY" with
  | some key => { c with providers := { c.providers with
      openrouter := { c.providers.openrouter with api_key := some key } } }
  | none => c

/-- The OPENAI_API_KEY block of apply_env_overrides. -/
def ovOpenai (env : String → Option String) (c : Config) : Config :=
  match truthyGet env "OPENAI_API_KEY" with
  | some key => { c with providers := { c.providers with
      openai := { c.providers.openai with api_key := some key } } }
  | none => c

/-- The ANTHROPIC_API_KEY block of apply_env_overrides. -/
def ovAnthropic (env : String → Option String) (c : Config) : Config :=
  match truthyGet env "ANTHROPIC_API_KEY" with
  | some key => { c with providers := { c.providers with
      anthropic := { c.providers.anthropic with api_key := some key } } }
  | none => c

/-- The DEEPSEEK_API_KEY block of apply_env_overrides. -/
def ovDeepseek (env : String → Option String) (c : Config) : Config :=
  match truthyGet env "DEEPSEEK_API_KEY" with
  | some key => { c with providers := { c.providers with
      deepseek := { c.providers.deepseek with api_key := some key } } }
  | none => c

/-- The GEMINI_API_KEY block of apply_env_overrides. -/
def ovGemini (env : String → Option String) (c : Config) : Config :=
  match truthyGet env "GEMINI_API_KEY" with
  | some key => { c with providers := { c.providers with
      gemini := { c.providers.gemini with api_key := some key } } }
  | none => c

/-- The ZHIPU_API_KEY / ZHIPUAI_API_KEY block of apply_env_overrides. -/
def ovZhipu (env : String → Option String) (c : Config) : Config :=
  match orTruthy (truthyGet env "ZHIPU_API_KEY") (truthyGet env "ZHIPUAI_API_KEY") with
  | some key => { c with providers := { c.providers with
      zhipu := { c.providers.zhipu with api_key := some key } } }
  | none => c

/-- The AGENT_MODEL / MODEL block of apply_env_overrides. -/
def ovModel (env : String → Option String) (c : Config) : Config :=
  match orTruthy (truthyGet env "AGENT_MODEL") (truthyGet env "MODEL") with
  | some m => { c with agents := { c.agents with
      defaults := { c.agents.defaults with model := m } } }
  | none => c

/-- The AGENT_WORKSPACE block of apply_env_overrides. The AGENT_ENGINE
block that follows it in the source is an explicit no-op (pass). -/
def ovWorkspace (env : String → Option String) (c : Config) : Config :=
  match truthyGet env "AGENT_WORKSPACE" with
  | some w => { c with agents := { c.agents with
      defaults := { c.agents.defaults with workspace := w } } }
  | none => c

/-- The TELEGRAM_TOKEN block of apply_env_overrides: one variable fans out
to the token and the enabled flag. -/
def ovTelegramToken (env : String → Option String) (c : Config) : Config :=
  match truthyGet env "TELEGRAM_TOKEN" with
  | some token => { c with channels := { c.channels with
      telegram := { c.channels.telegram with token := token, enabled := true } } }
  | none => c

/-- The ALLOWED_USERS / TELEGRAM_ALLOWED_USERS block of
apply_env_overrides: split on commas and strip each element. -/
def ovAllowedUsers (env : String → Option String) (c : Config) : Config :=
  match orTruthy (truthyGet env "ALLOWED_USERS") (truthyGet env "TELEGRAM_ALLOWED_USERS") with
  | some allowed => { c with channels := { c.channels with
      telegram := { c.channels.telegram with
        allow_from := (allowed.splitOn ",").map pyStrip } } }
  | none => c

/-- The WHATSAPP_ENABLED block of apply_env_overrides: the value, defaulted
to the empty string and lowercased, must equal the word true. -/
def ovWhatsappEnabled (env : String → Option String) (c : Config) : Config :=
  if pyLowerStr ((env "WHATSAPP_ENABLED").getD "") = "true" then
    { c with channels := { c.channels with
        whatsapp := { c.channels.whatsapp with enabled := true } } }
  else c

/-- The WHATSAPP_ALLOWED_NUMBERS block of apply_env_overrides. -/
def ovWhatsappAllowed (env : String → Option String) (c : Config) : Config :=
  match truthyGet env "WHATSAPP_ALLOWED_NUMBERS" with
  | some wa => { c with channels := { c.channels with
      whatsapp := { c.channels.whatsapp with
        allow_from := (wa.splitOn ",").map pyStrip } } }
  | none => c

/-- One step of the generic CHANNELS loop: enable the channel whose section
exists under the given name, ignore unknown names. The hasattr test of the
source corresponds to the two channel sections of the schema. -/
def chanStep (c : Config) (name : String) : Config :=
  if name = "telegram" then
    { c with channels := { c.channels with
        telegram := { c.channels.telegram with enabled := true } } }
  else if name = "whatsapp" then
    { c with channels := { c.channels with
        whatsapp := { c.channels.whatsapp with enabled := true } } }
  else c

/-- The generic CHANNELS block of apply_env_overrides: a comma-separated
list of channel names, each stripped and lowercased. -/
def ovChannels (env : String → Option String) (c : Config) : Config :=
  match truthyGet env "CHANNELS" with
  | some s => ((s.splitOn ",").map fun x => pyLowerStr (pyStrip x)).foldl chanStep c
  | none => c

/-- The ALEXZO_API_KEY block of apply_env_overrides. -/
def ovAlexzo (env : String → Option String) (c : Config) : Config :=
  match truthyGet env "ALEXZO_API_KEY" with
  | some key => { c with tools := { c.tools with
      web := { c.tools.web with search := { c.tools.web.search with
        api_key := some key } } } }
  | none => c

/-- apply_env_overrides from loader.py (written there with a leading
underscore): the override blocks applied in source order. -/
def apply_env_overrides (env : String → Option String) (config : Config) : Config :=
  ovAlexzo env (ovChannels env (ovWhatsappAllowed env (ovWhatsappEnabled env
    (ovAllowedUsers env (ovTelegramToken env (ovWorkspace env (ovModel env
      (ovZhipu env (ovGemini env (ovDeepseek env (ovAnthropic env
        (ovOpenai env (ovOpenrouter env (ovGroq env config))))))))))))))

/-! ## The layered source resolver (load_config from loader.py) -/
/-- The inline NANOBOT_CONFIG source of load_config: unset or empty means
the source is skipped; a set value is parsed by json.loads, and a parse
failure (JSONDecodeError, a ValueError) or a validation failure is caught
and logged, so the source abstains with ok none; an error raised by
migrate_config on a parsed document of the wrong shape is not caught by the
except clause, which names only JSONDecodeError and ValueError. -/
def envSource (st : SysState) : Except PyErr (Option Config) :=
  match truthyGet st.env "NANOBOT_CONFIG" with
  | none => .ok none
  | some raw =>
    match st.jparse raw with
    | none => .ok none
    | some j =>
      match migrate_config j with
      | .error e => .error e
      | .ok d => .ok (Config.model_validate (convert_keys d))

/-- One file candidate of load_config: a missing path is skipped silently;
an existing unreadable path raises OSError from open, which the except
clause does not catch; unparseable content is caught and skipped; a parsed
document goes through migration (whose errors propagate), normalization and
validation (whose failure is caught and skipped). -/
def fileSource (st : SysState) (path : String) : Except PyErr (Option Config) :=
  match st.fs path with
  | .absent => .ok none
  | .unreadable => .error .oserror
  | .readable content =>
    match st.jparse content with
    | none => .ok none
    | some j =>
      match migrate_config j with
      | .error e => .error e
      | .ok d => .ok (Config.model_validate (convert_keys d))

/-- The candidate-path loop of load_config: first success wins, a source
that abstains passes control to the next, an uncaught error propagates. -/
def tryPaths (st : SysState) : List String → Except PyErr (Option Config)
  | [] => .ok none
  | p :: rest =>
    match fileSource st p with
    | .ok none => tryPaths st rest
    | .ok (some c) => .ok (some c)
    | .error e => .error e

/-- The candidate file-path list of load_config: the explicit path alone if
given, otherwise the home default followed by config.json in the current
directory. -/
def candidatePaths (st : SysState) (config_path : Option String) : List String :=
  match config_path with
  | some p => [p]
  | none => [get_config_path st.home, "config.json"]

/-- load_config from loader.py: the NANOBOT_CONFIG source, then the
candidate files, then the all-defaults Config; whichever configuration
results, the environment overrides are applied last. -/
def load_config (st : SysState) (config_path : Option String) :
    Except PyErr Config :=
  match envSource st with
  | .error e => .error e
  | .ok (some c) => .ok (apply_env_overrides st.env c)
  | .ok none =>
    match tryPaths st (candidatePaths st config_path) with
    | .error e => .error e
    | .ok (some c) => .ok (apply_env_overrides st.env c)
    | .ok none => .ok (apply_env_overrides st.env Config.default)

/-- The expression config_path or get_config_path() of save_config. -/
def targetPath (st : SysState) (config_path : Option String) : String :=
  match config_path with
  | some p => p
  | none => get_config_path st.home

/-- save_config from loader.py: serialize the full field representation,
convert every key to camelCase, and write pretty-printed JSON at the
explicit path or the home default. Parent directories are created first;
failure of the directory creation or of the write itself (an unwritable
target) raises an OSError that propagates to the caller. The model returns
the written path and document on success. -/
def save_config (st : SysState) (config : Config) (config_path : Option String) :
    Except PyErr (String × Json) :=
  if st.writable (targetPath st config_path) then
    .ok (targetPath st config_path, convert_to_camel (Config.model_dump config))
  else
    .error .oserror

/-! ## Spec-side migration for claim C4 -/
/-- Documents on which migrate_config performs no Python attribute or type
error: the document is a mapping, its tools entry (if any) is a mapping,
and the nested exec entry (if any) is a mapping. -/
def toolsShaped : Json → Bool
  | Json.obj kvs =>
    match jLookup "tools" kvs with
    | none => true
    | some (Json.obj tkvs) =>
      match jLookup "exec" tkvs with
      | none => true
      | some (Json.obj _) => true
      | some _ => false
    | some _ => false
  | _ => false

/-- The migration rule in the words of claim C4: move the value of
tools.exec.restrictToWorkspace to tools.restrictToWorkspace exactly when
the nested key is present and the top-level key absent, removing the nested
key; otherwise leave the document unchanged, the existing top-level value
winning when both are present. -/
def migrateSpec (data : Json) : Json :=
  match data with
  | Json.obj kvs =>
    match jLookup "tools" kvs with
    | some (Json.obj tkvs) =>
      match jLookup "exec" tkvs with
      | some (Json.obj ekvs) =>
        match jLookup "restrictToWorkspace" ekvs with
        | some v =>
          if jHasKey "restrictToWorkspace" tkvs then data
          else
            Json.obj (jSet "tools"
              (Json.obj (jSet "restrictToWorkspace" v
                (jSet "exec" (Json.obj (jErase "restrictToWorkspace" ekvs)) tkvs))) kvs)
        | none => data
      | _ => data
    | _ => data
  | _ => data

/-! ## The BigQuery tool (bigquery.py) -/
/-- A Python value passed as a keyword argument to the tool. -/
inductive PyVal where
  | vnone : PyVal
  | vbool (b : Bool) : PyVal
  | vint (n : Int) : PyVal
  | vstr (s : String) : PyVal
  | vlist (xs : List Json) : PyVal
  deriving Repr

/-- Python truthiness: None, False, zero, the empty string and the empty
list are falsy. -/
def pyFalsy : PyVal → Bool
  | .vnone => true
  | .vbool b => !b
  | .vint n => n = 0
  | .vstr s => s = ""
  | .vlist xs => xs.isEmpty

/-- kwargs.get(k): a missing keyword argument reads as None. -/
def kwGet (kwargs : List (String × PyVal)) (k : String) : PyVal :=
  match kwargs with
  | [] => .vnone
  | (k', v) :: rest => if k' = k then v else kwGet rest k

/-- The external google.cloud.bigquery client, an opaque collaborator whose
calls either return data or raise an exception carrying a message. -/
structure BQClient where
  runQuery : PyVal → Except String (List Json)
  insertRowsJson : PyVal → PyVal → PyVal → Except String (List Json)
  listDatasets : Except String (List String)
  listTables : PyVal → Except String (List String)

/-- The environment of one BigQueryTool.execute call: getClient models
self.get_client (it raises FileNotFoundError when the key file is missing,
and the google libraries may raise on import or on credential loading), and
the three rendering functions model json.dumps with default=str and the
f-string rendering of an error list, all of which return text. -/
structure BQEnv where
  getClient : Except String BQClient
  dumpsRows : List Json → String
  dumpsStrs : List String → String
  reprErrors : List Json → String

/-- The body of the try block of BigQueryTool.execute: every return
statement becomes ok, every raised exception becomes error. -/
def executeTry (e : BQEnv) (operation : String)
    (kwargs : List (String × PyVal)) : Except String String := do
  let client ← e.getClient
  if operation = "query" then
    let q := kwGet kwargs "query"
    if pyFalsy q then
      pure "Error: 'query' parameter is required for query operation"
    else do
      let rows ← client.runQuery q
      pure (e.dumpsRows rows)
  else if operation = "insert" then
    let dataset_id := kwGet kwargs "dataset_id"
    let table_id := kwGet kwargs "table_id"
    let rows := kwGet kwargs "rows"
    if pyFalsy dataset_id || pyFalsy table_id || pyFalsy rows then
      pure "Error: 'dataset_id', 'table_id', and 'rows' are required for insert operation"
    else do
      let errors ← client.insertRowsJson dataset_id table_id rows
      if errors.isEmpty then
        pure "Success: Rows inserted"
      else
        pure ("Error inserting rows: " ++ e.reprErrors errors)
  else if operation = "list_datasets" then do
    let ds ← client.listDatasets
    pure (e.dumpsStrs ds)
  else if operation = "list_tables" then
    let dataset_id := kwGet kwargs "dataset_id"
    if pyFalsy dataset_id then
      pure "Error: 'dataset_id' is required for list_tables operation"
    else do
      let ts ← client.listTables dataset_id
      pure (e.dumpsStrs ts)
  else
    pure ("Error: Unknown operation '" ++ operation ++ "'")

/-- BigQueryTool.execute: the try body wrapped in the catch-all except
clause, which converts any exception into Error: followed by its message.
The function is total, which is the never-raises guarantee. -/
def execute (e : BQEnv) (operation : String)
    (kwargs : List (String × PyVal)) : String :=
  match executeTry e operation kwargs with
  | .ok s => s
  | .error msg => "Error: " ++ msg

/-- A required parameter of the requested operation is missing or falsy. -/
def missingParam (operation : String) (kwargs : List (String × PyVal)) : Bool :=
  (operation = "query" && pyFalsy (kwGet kwargs "query")) ||
  (operation = "insert" && (pyFalsy (kwGet kwargs "dataset_id") ||
    pyFalsy (kwGet kwargs "table_id") || pyFalsy (kwGet kwargs "rows"))) ||
  (operation = "list_tables" && pyFalsy (kwGet kwargs "dataset_id"))

/-- The operation name is not one of the four dispatched operations. -/
def unknownOp (operation : String) : Bool :=
  !(operation = "query" || operation = "insert" ||
    operation = "list_datasets" || operation = "list_tables")

/-- The textual error convention of the tool boundary: the returned text
begins with the word Error. -/
def isErrorText (s : String) : Bool := "Error".data.isPrefixOf s.data

/-! ## Unset-variable and set-variable lemmas for the override blocks -/
/-- An environment variable that is unset or set to the empty string; the
two cases Python truthiness treats alike. -/
def unsetOrEmpty (env : String → Option String) (v : String) : Prop :=
  env v = none ∨ env v = some ""

/-- The environment variables recognized by apply_env_overrides. -/
def recognizedVars : List String :=
  ["GROQ_API_KEY", "LITELLM_GROQ_API_KEY", "OPENROUTER_API_KEY", "OPENAI_API_KEY",
   "ANTHROPIC_API_KEY", "DEEPSEEK_API_KEY", "GEMINI_API_KEY", "ZHIPU_API_KEY",
   "ZHIPUAI_API_KEY", "AGENT_MODEL", "MODEL", "AGENT_WORKSPACE", "AGENT_ENGINE",
   "TELEGRAM_TOKEN", "ALLOWED_USERS", "TELEGRAM_ALLOWED_USERS", "WHATSAPP_ENABLED",
   "WHATSAPP_ALLOWED_NUMBERS", "CHANNELS", "ALEXZO_API_KEY"]

mutual
/-- The key skeleton of a JSON document: every mapping keeps its keys in
order, every leaf and every sequence collapses to null. Two documents with
the same keyShape carry exactly the same mapping keys at every depth. -/
def keyShape : Json → Json
  | .obj kvs => .obj (keyShapePairs kvs)
  | _ => .null

/-- keyShape mapped over the items of a dict. -/
def keyShapePairs : List (String × Json) → List (String × Json)
  | [] => []
  | (k, v) :: rest => (k, keyShape v) :: keyShapePairs rest
end

/-! ## Theorems -/

/-! ## Character-level lemmas for the ASCII case transforms -/
theorem isUpper_toNat_bounds {c : Char} (h : c.isUpper = true) :
    65 ≤ c.toNat ∧ c.toNat ≤ 90 := by
  simp [Char.isUpper] at h
  exact ⟨UInt32.le_toNat_of_le (by norm_num [UInt32.size]) h.1,
         UInt32.toNat_le_of_le (by norm_num [UInt32.size]) h.2⟩

theorem isLower_toNat_bounds {c : Char} (h : c.isLower = true) :
    97 ≤ c.toNat ∧ c.toNat ≤ 122 := by
  simp [Char.isLower] at h
  exact ⟨UInt32.le_toNat_of_le (by norm_num [UInt32.size]) h.1,
         UInt32.toNat_le_of_le (by norm_num [UInt32.size]) h.2⟩

theorem isDigit_toNat_bounds {c : Char} (h : c.isDigit = true) :
    48 ≤ c.toNat ∧ c.toNat ≤ 57 := by
  simp [Char.isDigit] at h
  exact ⟨UInt32.le_toNat_of_le (by norm_num [UInt32.size]) h.1,
         UInt32.toNat_le_of_le (by norm_num [UInt32.size]) h.2⟩

theorem toUpper_toLower_of_isUpper {c : Char} (h : c.isUpper = true) :
    c.toLower.toUpper = c := by
  obtain ⟨h1, h2⟩ := isUpper_toNat_bounds h
  rw [(Char.ofNat_toNat c).symm]
  interval_cases h : c.toNat <;> decide

theorem isLower_toLower_of_isUpper {c : Char} (h : c.isUpper = true) :
    c.toLower.isLower = true := by
  obtain ⟨h1, h2⟩ := isUpper_toNat_bounds h
  rw [(Char.ofNat_toNat c).symm]
  interval_cases h : c.toNat <;> decide

theorem uint32_le_iff_toNat_le (a b : UInt32) : a ≤ b ↔ a.toNat ≤ b.toNat := by
  rw [UInt32.le_def, BitVec.le_def]
  exact Iff.rfl

theorem toLower_of_not_isUpper {c : Char} (h : c.isUpper = false) :
    c.toLower = c := by
  unfold Char.toLower
  rw [if_neg]
  intro ⟨h1, h2⟩
  simp [Char.isUpper] at h
  have ha : (65 : UInt32) ≤ c.val := by
    rw [uint32_le_iff_toNat_le]
    exact h1
  have hb : c.val ≤ (90 : UInt32) := by
    rw [uint32_le_iff_toNat_le]
    exact h2
  exact (UInt32.not_lt.mpr hb) (h ha)

theorem isLower_isAlpha {c : Char} (h : c.isLower = true) : c.isAlpha = true := by
  simp [Char.isAlpha, h]

theorem isDigit_not_isAlpha {c : Char} (h : c.isDigit = true) : c.isAlpha = false := by
  obtain ⟨h1, h2⟩ := isDigit_toNat_bounds h
  rw [(Char.ofNat_toNat c).symm]
  interval_cases h : c.toNat <;> decide

theorem isLower_not_isUpper {c : Char} (h : c.isLower = true) : c.isUpper = false := by
  obtain ⟨h1, h2⟩ := isLower_toNat_bounds h
  rw [(Char.ofNat_toNat c).symm]
  interval_cases h : c.toNat <;> decide

theorem isDigit_not_isUpper {c : Char} (h : c.isDigit = true) : c.isUpper = false := by
  obtain ⟨h1, h2⟩ := isDigit_toNat_bounds h
  rw [(Char.ofNat_toNat c).symm]
  interval_cases h : c.toNat <;> decide

theorem isLower_ne_underscore {c : Char} (h : c.isLower = true) : c ≠ '_' := by
  intro he
  subst he
  simp [Char.isLower] at h

theorem isUpper_ne_underscore {c : Char} (h : c.isUpper = true) : c ≠ '_' := by
  intro he
  subst he
  simp [Char.isUpper] at h

theorem isDigit_ne_underscore {c : Char} (h : c.isDigit = true) : c ≠ '_' := by
  intro he
  subst he
  simp [Char.isDigit] at h

theorem splitU_ne_nil (cs : List Char) : splitU cs ≠ [] := by
  match cs with
  | [] => simp [splitU]
  | c :: rest =>
    simp only [splitU]
    split
    · simp
    · match h : splitU rest with
      | [] => simp
      | g :: gs => simp

theorem splitU_cons_ne {c : Char} {xs g gs} (h : c ≠ '_')
    (hx : splitU xs = g :: gs) : splitU (c :: xs) = (c :: g) :: gs := by
  simp only [splitU, if_neg h, hx]

theorem snakeToCamelL_eq_glueB (cs : List Char) : snakeToCamelL cs = glueB cs := by
  unfold snakeToCamelL glueB
  rfl

theorem splitU_underscore (xs : List Char) : splitU ('_' :: xs) = [] :: splitU xs := by
  simp [splitU]

theorem glueC_c2sAux (rest : List Char) :
    ∀ pa, (rest.all fun c => c.isUpper || c.isLower || c.isDigit) = true →
    postOk pa rest = true → glueC pa (c2sAux rest) = rest := by
  induction rest with
  | nil => intro pa _ _; simp [c2sAux, glueC, splitU, titleAux]
  | cons c r ih =>
    intro pa hall hpost
    simp only [List.all_cons, Bool.and_eq_true] at hall
    obtain ⟨hc, hr⟩ := hall
    obtain ⟨g0, gs0, hsp⟩ : ∃ g gs, splitU (c2sAux r) = g :: gs := by
      match h : splitU (c2sAux r) with
      | [] => exact absurd h (splitU_ne_nil _)
      | g :: gs => exact ⟨g, gs, rfl⟩
    by_cases hu : c.isUpper = true
    · have hlow : c.toLower.isLower = true := isLower_toLower_of_isUpper hu
      have hne : c.toLower ≠ '_' := isLower_ne_underscore hlow
      have hsp2 : splitU (c.toLower :: c2sAux r) = (c.toLower :: g0) :: gs0 :=
        splitU_cons_ne hne hsp
      simp only [c2sAux, hu, if_true, List.cons_append, List.nil_append]
      simp only [glueC, splitU_underscore, hsp2, List.map_cons, List.flatten_cons,
        titleAux, List.nil_append]
      simp only [pyTitle, titleAux, isLower_isAlpha hlow, if_true, Bool.false_eq_true,
        if_false, toUpper_toLower_of_isUpper hu]
      have hpost' : postOk true r = true := by
        simpa [postOk, hu] using hpost
      have := ih true hr hpost'
      simp only [glueC, hsp] at this
      simp [this]
    · have hcl : c.toLower = c := toLower_of_not_isUpper (by simpa using hu)
      have hne : c ≠ '_' := by
        rcases Bool.or_eq_true_iff.mp hc with h1 | h2
        · rcases Bool.or_eq_true_iff.mp h1 with h3 | h4
          · exact absurd h3 (by simpa using hu)
          · exact isLower_ne_underscore h4
        · exact isDigit_ne_underscore h2
      have hsp2 : splitU (c :: c2sAux r) = (c :: g0) :: gs0 := splitU_cons_ne hne hsp
      simp only [c2sAux, hu, Bool.false_eq_true, if_false, List.cons_append,
        List.nil_append, hcl]
      by_cases hl : c.isLower = true
      · have hpa : pa = true ∧ postOk true r = true := by
          have : (pa && postOk true r) = true := by
            simpa [postOk, hu, hl] using hpost
          simpa using this
        simp only [glueC, hsp2, titleAux, isLower_isAlpha hl, if_true, hpa.1,
          toLower_of_not_isUpper (isLower_not_isUpper hl)]
        have := ih true hr hpa.2
        simp only [glueC, hsp] at this
        simp [this]
      · have hd : c.isDigit = true := by
          rcases Bool.or_eq_true_iff.mp hc with h1 | h2
          · rcases Bool.or_eq_true_iff.mp h1 with h3 | h4
            · exact absurd h3 (by simpa using hu)
            · exact absurd h4 (by simpa using hl)
          · exact h2
        have hpost' : postOk false r = true := by
          simpa [postOk, hu, hl] using hpost
        simp only [glueC, hsp2, titleAux, isDigit_not_isAlpha hd, Bool.false_eq_true,
          if_false]
        have := ih false hr hpost'
        simp only [glueC, hsp] at this
        simp [isDigit_not_isAlpha hd, this]

theorem glueB_c2sAux (rest : List Char) :
    (rest.all fun c => c.isUpper || c.isLower || c.isDigit) = true →
    preOk rest = true → glueB (c2sAux rest) = rest := by
  induction rest with
  | nil => intro _ _; simp [c2sAux, glueB, splitU]
  | cons c r ih =>
    intro hall hpre
    simp only [List.all_cons, Bool.and_eq_true] at hall
    obtain ⟨hc, hr⟩ := hall
    obtain ⟨g0, gs0, hsp⟩ : ∃ g gs, splitU (c2sAux r) = g :: gs := by
      match h : splitU (c2sAux r) with
      | [] => exact absurd h (splitU_ne_nil _)
      | g :: gs => exact ⟨g, gs, rfl⟩
    by_cases hu : c.isUpper = true
    · have hlow : c.toLower.isLower = true := isLower_toLower_of_isUpper hu
      have hne : c.toLower ≠ '_' := isLower_ne_underscore hlow
      have hsp2 : splitU (c.toLower :: c2sAux r) = (c.toLower :: g0) :: gs0 :=
        splitU_cons_ne hne hsp
      simp only [c2sAux, hu, if_true, List.cons_append, List.nil_append]
      simp only [glueB, splitU_underscore, hsp2, List.map_cons, List.flatten_cons,
        List.nil_append]
      simp only [pyTitle, titleAux, isLower_isAlpha hlow, if_true, Bool.false_eq_true,
        if_false, toUpper_toLower_of_isUpper hu]
      have hpost : postOk true r = true := by
        simpa [preOk, hu] using hpre
      have := glueC_c2sAux r true hr hpost
      simp only [glueC, hsp] at this
      simp [this]
    · have hcl : c.toLower = c := toLower_of_not_isUpper (by simpa using hu)
      have hne : c ≠ '_' := by
        rcases Bool.or_eq_true_iff.mp hc with h1 | h2
        · rcases Bool.or_eq_true_iff.mp h1 with h3 | h4
          · exact absurd h3 (by simpa using hu)
          · exact isLower_ne_underscore h4
        · exact isDigit_ne_underscore h2
      have hsp2 : splitU (c :: c2sAux r) = (c :: g0) :: gs0 := splitU_cons_ne hne hsp
      simp only [c2sAux, hu, Bool.false_eq_true, if_false, List.cons_append,
        List.nil_append, hcl]
      have hpre' : preOk r = true := by
        simpa [preOk, hu] using hpre
      simp only [glueB, hsp2]
      have := ih hr hpre'
      simp only [glueB, hsp] at this
      simp [this]

theorem roundtripL (k : List Char) (h : roundOkL k = true) :
    snakeToCamelL (camelToSnakeL k) = k := by
  rw [snakeToCamelL_eq_glueB]
  match k with
  | [] => simp [camelToSnakeL, glueB, splitU]
  | c :: rest =>
    simp only [roundOkL, Bool.and_eq_true, List.all_cons] at h
    obtain ⟨⟨⟨hc, hall⟩, _⟩, hstart⟩ := h
    have hnu : c.isUpper = false := by simpa using hstart.1
    have hpre : preOk rest = true := hstart.2
    have hcl : c.toLower = c := toLower_of_not_isUpper hnu
    have hne : c ≠ '_' := by
      rcases Bool.or_eq_true_iff.mp hc with h1 | h2
      · rcases Bool.or_eq_true_iff.mp h1 with h3 | h4
        · exact absurd h3 (by simpa using hnu)
        · exact isLower_ne_underscore h4
      · exact isDigit_ne_underscore h2
    obtain ⟨g0, gs0, hsp⟩ : ∃ g gs, splitU (c2sAux rest) = g :: gs := by
      match h : splitU (c2sAux rest) with
      | [] => exact absurd h (splitU_ne_nil _)
      | g :: gs => exact ⟨g, gs, rfl⟩
    simp only [camelToSnakeL, hcl]
    simp only [glueB, splitU_cons_ne hne hsp]
    have := glueB_c2sAux rest hall hpre
    simp only [glueB, hsp] at this
    simp [this]

/-! ## Frame lemmas: each override block leaves every other field unchanged -/
theorem fr_ovGroq_providers_openrouter (env : String → Option String) (c : Config) :
    (ovGroq env c).providers.openrouter = c.providers.openrouter := by
  unfold ovGroq
  split <;> rfl

theorem fr_ovGroq_providers_openai (env : String → Option String) (c : Config) :
    (ovGroq env c).providers.openai = c.providers.openai := by
  unfold ovGroq
  split <;> rfl

theorem fr_ovGroq_providers_anthropic (env : String → Option String) (c : Config) :
    (ovGroq env c).providers.anthropic = c.providers.anthropic := by
  unfold ovGroq
  split <;> rfl

theorem fr_ovGroq_providers_deepseek (env : String → Option String) (c : Config) :
    (ovGroq env c).providers.deepseek = c.providers.deepseek := by
  unfold ovGroq
  split <;> rfl

theorem fr_ovGroq_providers_gemini (env : String → Option String) (c : Config) :
    (ovGroq env c).providers.gemini = c.providers.gemini := by
  unfold ovGroq
  split <;> rfl

theorem fr_ovGroq_providers_zhipu (env : String → Option String) (c : Config) :
    (ovGroq env c).providers.zhipu = c.providers.zhipu := by
  unfold ovGroq
  split <;> rfl

theorem fr_ovGroq_agents (env : String → Option String) (c : Config) :
    (ovGroq env c).agents = c.agents := by
  unfold ovGroq
  split <;> rfl

theorem fr_ovGroq_channels (env : String → Option String) (c : Config) :
    (ovGroq env c).channels = c.channels := by
  unfold ovGroq
  split <;> rfl

theorem fr_ovGroq_tools (env : String → Option String) (c : Config) :
    (ovGroq env c).tools = c.tools := by
  unfold ovGroq
  split <;> rfl

theorem fr_ovOpenrouter_providers_groq (env : String → Option String) (c : Config) :
    (ovOpenrouter env c).providers.groq = c.providers.groq := by
  unfold ovOpenrouter
  split <;> rfl

theorem fr_ovOpenrouter_providers_openai (env : String → Option String) (c : Config) :
    (ovOpenrouter env c).providers.openai = c.providers.openai := by
  unfold ovOpenrouter
  split <;> rfl

theorem fr_ovOpenrouter_providers_anthropic (env : String → Option String) (c : Config) :
    (ovOpenrouter env c).providers.anthropic = c.providers.anthropic := by
  unfold ovOpenrouter
  split <;> rfl

theorem fr_ovOpenrouter_providers_deepseek (env : String → Option String) (c : Config) :
    (ovOpenrouter env c).providers.deepseek = c.providers.deepseek := by
  unfold ovOpenrouter
  split <;> rfl

theorem fr_ovOpenrouter_providers_gemini (env : String → Option String) (c : Config) :
    (ovOpenrouter env c).providers.gemini = c.providers.gemini := by
  unfold ovOpenrouter
  split <;> rfl

theorem fr_ovOpenrouter_providers_zhipu (env : String → Option String) (c : Config) :
    (ovOpenrouter env c).providers.zhipu = c.providers.zhipu := by
  unfold ovOpenrouter
  split <;> rfl

theorem fr_ovOpenrouter_agents (env : String → Option String) (c : Config) :
    (ovOpenrouter env c).agents = c.agents := by
  unfold ovOpenrouter
  split <;> rfl

theorem fr_ovOpenrouter_channels (env : String → Option String) (c : Config) :
    (ovOpenrouter env c).channels = c.channels := by
  unfold ovOpenrouter
  split <;> rfl

theorem fr_ovOpenrouter_tools (env : String → Option String) (c : Config) :
    (ovOpenrouter env c).tools = c.tools := by
  unfold ovOpenrouter
  split <;> rfl

theorem fr_ovOpenai_providers_groq (env : String → Option String) (c : Config) :
    (ovOpenai env c).providers.groq = c.providers.groq := by
  unfold ovOpenai
  split <;> rfl

theorem fr_ovOpenai_providers_openrouter (env : String → Option String) (c : Config) :
    (ovOpenai env c).providers.openrouter = c.providers.openrouter := by
  unfold ovOpenai
  split <;> rfl

theorem fr_ovOpenai_providers_anthropic (env : String → Option String) (c : Config) :
    (ovOpenai env c).providers.anthropic = c.providers.anthropic := by
  unfold ovOpenai
  split <;> rfl

theorem fr_ovOpenai_providers_deepseek (env : String → Option String) (c : Config) :
    (ovOpenai env c).providers.deepseek = c.providers.deepseek := by
  unfold ovOpenai
  split <;> rfl

theorem fr_ovOpenai_providers_gemini (env : String → Option String) (c : Config) :
    (ovOpenai env c).providers.gemini = c.providers.gemini := by
  unfold ovOpenai
  split <;> rfl

theorem fr_ovOpenai_providers_zhipu (env : String → Option String) (c : Config) :
    (ovOpenai env c).providers.zhipu = c.providers.zhipu := by
  unfold ovOpenai
  split <;> rfl

theorem fr_ovOpenai_agents (env : String → Option String) (c : Config) :
    (ovOpenai env c).agents = c.agents := by
  unfold ovOpenai
  split <;> rfl

theorem fr_ovOpenai_channels (env : String → Option String) (c : Config) :
    (ovOpenai env c).channels = c.channels := by
  unfold ovOpenai
  split <;> rfl

theorem fr_ovOpenai_tools (env : String → Option String) (c : Config) :
    (ovOpenai env c).tools = c.tools := by
  unfold ovOpenai
  split <;> rfl

theorem fr_ovAnthropic_providers_groq (env : String → Option String) (c : Config) :
    (ovAnthropic env c).providers.groq = c.providers.groq := by
  unfold ovAnthropic
  split <;> rfl

theorem fr_ovAnthropic_providers_openrouter (env : String → Option String) (c : Config) :
    (ovAnthropic env c).providers.openrouter = c.providers.openrouter := by
  unfold ovAnthropic
  split <;> rfl

theorem fr_ovAnthropic_providers_openai (env : String → Option String) (c : Config) :
    (ovAnthropic env c).providers.openai = c.providers.openai := by
  unfold ovAnthropic
  split <;> rfl

theorem fr_ovAnthropic_providers_deepseek (env : String → Option String) (c : Config) :
    (ovAnthropic env c).providers.deepseek = c.providers.deepseek := by
  unfold ovAnthropic
  split <;> rfl

theorem fr_ovAnthropic_providers_gemini (env : String → Option String) (c : Config) :
    (ovAnthropic env c).providers.gemini = c.providers.gemini := by
  unfold ovAnthropic
  split <;> rfl

theorem fr_ovAnthropic_providers_zhipu (env : String → Option String) (c : Config) :
    (ovAnthropic env c).providers.zhipu = c.providers.zhipu := by
  unfold ovAnthropic
  split <;> rfl

theorem fr_ovAnthropic_agents (env : String → Option String) (c : Config) :
    (ovAnthropic env c).agents = c.agents := by
  unfold ovAnthropic
  split <;> rfl

theorem fr_ovAnthropic_channels (env : String → Option String) (c : Config) :
    (ovAnthropic env c).channels = c.channels := by
  unfold ovAnthropic
  split <;> rfl

theorem fr_ovAnthropic_tools (env : String → Option String) (c : Config) :
    (ovAnthropic env c).tools = c.tools := by
  unfold ovAnthropic
  split <;> rfl

theorem fr_ovDeepseek_providers_groq (env : String → Option String) (c : Config) :
    (ovDeepseek env c).providers.groq = c.providers.groq := by
  unfold ovDeepseek
  split <;> rfl

theorem fr_ovDeepseek_providers_openrouter (env : String → Option String) (c : Config) :
    (ovDeepseek env c).providers.openrouter = c.providers.openrouter := by
  unfold ovDeepseek
  split <;> rfl

theorem fr_ovDeepseek_providers_openai (env : String → Option String) (c : Config) :
    (ovDeepseek env c).providers.openai = c.providers.openai := by
  unfold ovDeepseek
  split <;> rfl

theorem fr_ovDeepseek_providers_anthropic (env : String → Option String) (c : Config) :
    (ovDeepseek env c).providers.anthropic = c.providers.anthropic := by
  unfold ovDeepseek
  split <;> rfl

theorem fr_ovDeepseek_providers_gemini (env : String → Option String) (c : Config) :
    (ovDeepseek env c).providers.gemini = c.providers.gemini := by
  unfold ovDeepseek
  split <;> rfl

theorem fr_ovDeepseek_providers_zhipu (env : String → Option String) (c : Config) :
    (ovDeepseek env c).providers.zhipu = c.providers.zhipu := by
  unfold ovDeepseek
  split <;> rfl

theorem fr_ovDeepseek_agents (env : String → Option String) (c : Config) :
    (ovDeepseek env c).agents = c.agents := by
  unfold ovDeepseek
  split <;> rfl

theorem fr_ovDeepseek_channels (env : String → Option String) (c : Config) :
    (ovDeepseek env c).channels = c.channels := by
  unfold ovDeepseek
  split <;> rfl

theorem fr_ovDeepseek_tools (env : String → Option String) (c : Config) :
    (ovDeepseek env c).tools = c.tools := by
  unfold ovDeepseek
  split <;> rfl

theorem fr_ovGemini_providers_groq (env : String → Option String) (c : Config) :
    (ovGemini env c).providers.groq = c.providers.groq := by
  unfold ovGemini
  split <;> rfl

theorem fr_ovGemini_providers_openrouter (env : String → Option String) (c : Config) :
    (ovGemini env c).providers.openrouter = c.providers.openrouter := by
  unfold ovGemini
  split <;> rfl

theorem fr_ovGemini_providers_openai (env : String → Option String) (c : Config) :
    (ovGemini env c).providers.openai = c.providers.openai := by
  unfold ovGemini
  split <;> rfl

theorem fr_ovGemini_providers_anthropic (env : String → Option String) (c : Config) :
    (ovGemini env c).providers.anthropic = c.providers.anthropic := by
  unfold ovGemini
  split <;> rfl

theorem fr_ovGemini_providers_deepseek (env : String → Option String) (c : Config) :
    (ovGemini env c).providers.deepseek = c.providers.deepseek := by
  unfold ovGemini
  split <;> rfl

theorem fr_ovGemini_providers_zhipu (env : String → Option String) (c : Config) :
    (ovGemini env c).providers.zhipu = c.providers.zhipu := by
  unfold ovGemini
  split <;> rfl

theorem fr_ovGemini_agents (env : String → Option String) (c : Config) :
    (ovGemini env c).agents = c.agents := by
  unfold ovGemini
  split <;> rfl

theorem fr_ovGemini_channels (env : String → Option String) (c : Config) :
    (ovGemini env c).channels = c.channels := by
  unfold ovGemini
  split <;> rfl

theorem fr_ovGemini_tools (env : String → Option String) (c : Config) :
    (ovGemini env c).tools = c.tools := by
  unfold ovGemini
  split <;> rfl

theorem fr_ovZhipu_providers_groq (env : String → Option String) (c : Config) :
    (ovZhipu env c).providers.groq = c.providers.groq := by
  unfold ovZhipu
  split <;> rfl

theorem fr_ovZhipu_providers_openrouter (env : String → Option String) (c : Config) :
    (ovZhipu env c).providers.openrouter = c.providers.openrouter := by
  unfold ovZhipu
  split <;> rfl

theorem fr_ovZhipu_providers_openai (env : String → Option String) (c : Config) :
    (ovZhipu env c).providers.openai = c.providers.openai := by
  unfold ovZhipu
  split <;> rfl

theorem fr_ovZhipu_providers_anthropic (env : String → Option String) (c : Config) :
    (ovZhipu env c).providers.anthropic = c.providers.anthropic := by
  unfold ovZhipu
  split <;> rfl

theorem fr_ovZhipu_providers_deepseek (env : String → Option String) (c : Config) :
    (ovZhipu env c).providers.deepseek = c.providers.deepseek := by
  unfold ovZhipu
  split <;> rfl

theorem fr_ovZhipu_providers_gemini (env : String → Option String) (c : Config) :
    (ovZhipu env c).providers.gemini = c.providers.gemini := by
  unfold ovZhipu
  split <;> rfl

theorem fr_ovZhipu_agents (env : String → Option String) (c : Config) :
    (ovZhipu env c).agents = c.agents := by
  unfold ovZhipu
  split <;> rfl

theorem fr_ovZhipu_channels (env : String → Option String) (c : Config) :
    (ovZhipu env c).channels = c.channels := by
  unfold ovZhipu
  split <;> rfl

theorem fr_ovZhipu_tools (env : String → Option String) (c : Config) :
    (ovZhipu env c).tools = c.tools := by
  unfold ovZhipu
  split <;> rfl

theorem fr_ovModel_providers (env : String → Option String) (c : Config) :
    (ovModel env c).providers = c.providers := by
  unfold ovModel
  split <;> rfl

theorem fr_ovModel_channels (env : String → Option String) (c : Config) :
    (ovModel env c).channels = c.channels := by
  unfold ovModel
  split <;> rfl

theorem fr_ovModel_tools (env : String → Option String) (c : Config) :
    (ovModel env c).tools = c.tools := by
  unfold ovModel
  split <;> rfl

theorem fr_ovModel_agents_defaults_workspace (env : String → Option String) (c : Config) :
    (ovModel env c).agents.defaults.workspace = c.agents.defaults.workspace := by
  unfold ovModel
  split <;> rfl

theorem fr_ovWorkspace_providers (env : String → Option String) (c : Config) :
    (ovWorkspace env c).providers = c.providers := by
  unfold ovWorkspace
  split <;> rfl

theorem fr_ovWorkspace_channels (env : String → Option String) (c : Config) :
    (ovWorkspace env c).channels = c.channels := by
  unfold ovWorkspace
  split <;> rfl

theorem fr_ovWorkspace_tools (env : String → Option String) (c : Config) :
    (ovWorkspace env c).tools = c.tools := by
  unfold ovWorkspace
  split <;> rfl

theorem fr_ovWorkspace_agents_defaults_model (env : String → Option String) (c : Config) :
    (ovWorkspace env c).agents.defaults.model = c.agents.defaults.model := by
  unfold ovWorkspace
  split <;> rfl

theorem fr_ovTelegramToken_providers (env : String → Option String) (c : Config) :
    (ovTelegramToken env c).providers = c.providers := by
  unfold ovTelegramToken
  split <;> rfl

theorem fr_ovTelegramToken_agents (env : String → Option String) (c : Config) :
    (ovTelegramToken env c).agents = c.agents := by
  unfold ovTelegramToken
  split <;> rfl

theorem fr_ovTelegramToken_tools (env : String → Option String) (c : Config) :
    (ovTelegramToken env c).tools = c.tools := by
  unfold ovTelegramToken
  split <;> rfl

theorem fr_ovTelegramToken_channels_telegram_allow_from (env : String → Option String) (c : Config) :
    (ovTelegramToken env c).channels.telegram.allow_from = c.channels.telegram.allow_from := by
  unfold ovTelegramToken
  split <;> rfl

theorem fr_ovTelegramToken_channels_whatsapp (env : String → Option String) (c : Config) :
    (ovTelegramToken env c).channels.whatsapp = c.channels.whatsapp := by
  unfold ovTelegramToken
  split <;> rfl

theorem fr_ovAllowedUsers_providers (env : String → Option String) (c : Config) :
    (ovAllowedUsers env c).providers = c.providers := by
  unfold ovAllowedUsers
  split <;> rfl

theorem fr_ovAllowedUsers_agents (env : String → Option String) (c : Config) :
    (ovAllowedUsers env c).agents = c.agents := by
  unfold ovAllowedUsers
  split <;> rfl

theorem fr_ovAllowedUsers_tools (env : String → Option String) (c : Config) :
    (ovAllowedUsers env c).tools = c.tools := by
  unfold ovAllowedUsers
  split <;> rfl

theorem fr_ovAllowedUsers_channels_telegram_token (env : String → Option String) (c : Config) :
    (ovAllowedUsers env c).channels.telegram.token = c.channels.telegram.token := by
  unfold ovAllowedUsers
  split <;> rfl

theorem fr_ovAllowedUsers_channels_telegram_enabled (env : String → Option String) (c : Config) :
    (ovAllowedUsers env c).channels.telegram.enabled = c.channels.telegram.enabled := by
  unfold ovAllowedUsers
  split <;> rfl

theorem fr_ovAllowedUsers_channels_whatsapp (env : String → Option String) (c : Config) :
    (ovAllowedUsers env c).channels.whatsapp = c.channels.whatsapp := by
  unfold ovAllowedUsers
  split <;> rfl

theorem fr_ovWhatsappEnabled_providers (env : String → Option String) (c : Config) :
    (ovWhatsappEnabled env c).providers = c.providers := by
  unfold ovWhatsappEnabled
  split <;> rfl

theorem fr_ovWhatsappEnabled_agents (env : String → Option String) (c : Config) :
    (ovWhatsappEnabled env c).agents = c.agents := by
  unfold ovWhatsappEnabled
  split <;> rfl

theorem fr_ovWhatsappEnabled_tools (env : String → Option String) (c : Config) :
    (ovWhatsappEnabled env c).tools = c.tools := by
  unfold ovWhatsappEnabled
  split <;> rfl

theorem fr_ovWhatsappEnabled_channels_telegram (env : String → Option String) (c : Config) :
    (ovWhatsappEnabled env c).channels.telegram = c.channels.telegram := by
  unfold ovWhatsappEnabled
  split <;> rfl

theorem fr_ovWhatsappEnabled_channels_whatsapp_allow_from (env : String → Option String) (c : Config) :
    (ovWhatsappEnabled env c).channels.whatsapp.allow_from = c.channels.whatsapp.allow_from := by
  unfold ovWhatsappEnabled
  split <;> rfl

theorem fr_ovWhatsappAllowed_providers (env : String → Option String) (c : Config) :
    (ovWhatsappAllowed env c).providers = c.providers := by
  unfold ovWhatsappAllowed
  split <;> rfl

theorem fr_ovWhatsappAllowed_agents (env : String → Option String) (c : Config) :
    (ovWhatsappAllowed env c).agents = c.agents := by
  unfold ovWhatsappAllowed
  split <;> rfl

theorem fr_ovWhatsappAllowed_tools (env : String → Option String) (c : Config) :
    (ovWhatsappAllowed env c).tools = c.tools := by
  unfold ovWhatsappAllowed
  split <;> rfl

theorem fr_ovWhatsappAllowed_channels_telegram (env : String → Option String) (c : Config) :
    (ovWhatsappAllowed env c).channels.telegram = c.channels.telegram := by
  unfold ovWhatsappAllowed
  split <;> rfl

theorem fr_ovWhatsappAllowed_channels_whatsapp_enabled (env : String → Option String) (c : Config) :
    (ovWhatsappAllowed env c).channels.whatsapp.enabled = c.channels.whatsapp.enabled := by
  unfold ovWhatsappAllowed
  split <;> rfl

theorem fr_ovAlexzo_providers (env : String → Option String) (c : Config) :
    (ovAlexzo env c).providers = c.providers := by
  unfold ovAlexzo
  split <;> rfl

theorem fr_ovAlexzo_agents (env : String → Option String) (c : Config) :
    (ovAlexzo env c).agents = c.agents := by
  unfold ovAlexzo
  split <;> rfl

theorem fr_ovAlexzo_channels (env : String → Option String) (c : Config) :
    (ovAlexzo env c).channels = c.channels := by
  unfold ovAlexzo
  split <;> rfl

theorem chanStep_providers (c : Config) (n : String) :
    (chanStep c n).providers = c.providers := by
  unfold chanStep
  split
  · rfl
  · split <;> rfl

theorem chanStep_agents (c : Config) (n : String) :
    (chanStep c n).agents = c.agents := by
  unfold chanStep
  split
  · rfl
  · split <;> rfl

theorem chanStep_tools (c : Config) (n : String) :
    (chanStep c n).tools = c.tools := by
  unfold chanStep
  split
  · rfl
  · split <;> rfl

theorem chanStep_tg_token (c : Config) (n : String) :
    (chanStep c n).channels.telegram.token = c.channels.telegram.token := by
  unfold chanStep
  split
  · rfl
  · split <;> rfl

theorem chanStep_tg_allow (c : Config) (n : String) :
    (chanStep c n).channels.telegram.allow_from = c.channels.telegram.allow_from := by
  unfold chanStep
  split
  · rfl
  · split <;> rfl

theorem chanStep_wa_allow (c : Config) (n : String) :
    (chanStep c n).channels.whatsapp.allow_from = c.channels.whatsapp.allow_from := by
  unfold chanStep
  split
  · rfl
  · split <;> rfl

theorem chanStep_tg_enabled (c : Config) (n : String)
    (h : c.channels.telegram.enabled = true) :
    (chanStep c n).channels.telegram.enabled = true := by
  unfold chanStep
  split
  · rfl
  · split
    · exact h
    · exact h

theorem chanStep_wa_enabled (c : Config) (n : String)
    (h : c.channels.whatsapp.enabled = true) :
    (chanStep c n).channels.whatsapp.enabled = true := by
  unfold chanStep
  split
  · exact h
  · split
    · rfl
    · exact h

theorem chanFold_providers (l : List String) :
    ∀ c : Config, (l.foldl chanStep c).providers = c.providers := by
  induction l with
  | nil => intro c; rfl
  | cons n rest ih =>
    intro c
    simp only [List.foldl_cons]
    rw [ih, chanStep_providers]

theorem chanFold_agents (l : List String) :
    ∀ c : Config, (l.foldl chanStep c).agents = c.agents := by
  induction l with
  | nil => intro c; rfl
  | cons n rest ih =>
    intro c
    simp only [List.foldl_cons]
    rw [ih, chanStep_agents]

theorem chanFold_tools (l : List String) :
    ∀ c : Config, (l.foldl chanStep c).tools = c.tools := by
  induction l with
  | nil => intro c; rfl
  | cons n rest ih =>
    intro c
    simp only [List.foldl_cons]
    rw [ih, chanStep_tools]

theorem chanFold_tg_token (l : List String) :
    ∀ c : Config, (l.foldl chanStep c).channels.telegram.token
      = c.channels.telegram.token := by
  induction l with
  | nil => intro c; rfl
  | cons n rest ih =>
    intro c
    simp only [List.foldl_cons]
    rw [ih, chanStep_tg_token]

theorem chanFold_tg_allow (l : List String) :
    ∀ c : Config, (l.foldl chanStep c).channels.telegram.allow_from
      = c.channels.telegram.allow_from := by
  induction l with
  | nil => intro c; rfl
  | cons n rest ih =>
    intro c
    simp only [List.foldl_cons]
    rw [ih, chanStep_tg_allow]

theorem chanFold_wa_allow (l : List String) :
    ∀ c : Config, (l.foldl chanStep c).channels.whatsapp.allow_from
      = c.channels.whatsapp.allow_from := by
  induction l with
  | nil => intro c; rfl
  | cons n rest ih =>
    intro c
    simp only [List.foldl_cons]
    rw [ih, chanStep_wa_allow]

theorem chanFold_tg_enabled (l : List String) :
    ∀ c : Config, c.channels.telegram.enabled = true →
      (l.foldl chanStep c).channels.telegram.enabled = true := by
  induction l with
  | nil => intro c h; exact h
  | cons n rest ih =>
    intro c h
    simp only [List.foldl_cons]
    exact ih _ (chanStep_tg_enabled c n h)

theorem chanFold_wa_enabled (l : List String) :
    ∀ c : Config, c.channels.whatsapp.enabled = true →
      (l.foldl chanStep c).channels.whatsapp.enabled = true := by
  induction l with
  | nil => intro c h; exact h
  | cons n rest ih =>
    intro c h
    simp only [List.foldl_cons]
    exact ih _ (chanStep_wa_enabled c n h)

theorem fr_ovChannels_providers (env : String → Option String) (c : Config) :
    (ovChannels env c).providers = c.providers := by
  unfold ovChannels
  split
  · rw [chanFold_providers]
  · rfl

theorem fr_ovChannels_agents (env : String → Option String) (c : Config) :
    (ovChannels env c).agents = c.agents := by
  unfold ovChannels
  split
  · rw [chanFold_agents]
  · rfl

theorem fr_ovChannels_tools (env : String → Option String) (c : Config) :
    (ovChannels env c).tools = c.tools := by
  unfold ovChannels
  split
  · rw [chanFold_tools]
  · rfl

theorem fr_ovChannels_tg_token (env : String → Option String) (c : Config) :
    (ovChannels env c).channels.telegram.token = c.channels.telegram.token := by
  unfold ovChannels
  split
  · rw [chanFold_tg_token]
  · rfl

theorem fr_ovChannels_tg_allow (env : String → Option String) (c : Config) :
    (ovChannels env c).channels.telegram.allow_from
      = c.channels.telegram.allow_from := by
  unfold ovChannels
  split
  · rw [chanFold_tg_allow]
  · rfl

theorem fr_ovChannels_wa_allow (env : String → Option String) (c : Config) :
    (ovChannels env c).channels.whatsapp.allow_from
      = c.channels.whatsapp.allow_from := by
  unfold ovChannels
  split
  · rw [chanFold_wa_allow]
  · rfl

theorem ovChannels_tg_enabled (env : String → Option String) (c : Config)
    (h : c.channels.telegram.enabled = true) :
    (ovChannels env c).channels.telegram.enabled = true := by
  unfold ovChannels
  split
  · exact chanFold_tg_enabled _ _ h
  · exact h

theorem ovChannels_wa_enabled (env : String → Option String) (c : Config)
    (h : c.channels.whatsapp.enabled = true) :
    (ovChannels env c).channels.whatsapp.enabled = true := by
  unfold ovChannels
  split
  · exact chanFold_wa_enabled _ _ h
  · exact h

theorem truthyGet_none {env : String → Option String} {v : String}
    (h : unsetOrEmpty env v) : truthyGet env v = none := by
  unfold truthyGet
  rcases h with h | h <;> rw [h]
  rfl

theorem truthyGet_some {env : String → Option String} {v s : String}
    (h : env v = some s) (hs : s ≠ "") : truthyGet env v = some s := by
  unfold truthyGet
  rw [h]
  simp [hs]

theorem ovGroq_id {env : String → Option String} (c : Config)
    (h1 : truthyGet env "GROQ_API_KEY" = none)
    (h2 : truthyGet env "LITELLM_GROQ_API_KEY" = none) : ovGroq env c = c := by
  unfold ovGroq
  rw [h1, h2]
  rfl

theorem ovOpenrouter_id {env : String → Option String} (c : Config)
    (h : truthyGet env "OPENROUTER_API_KEY" = none) : ovOpenrouter env c = c := by
  unfold ovOpenrouter
  rw [h]

theorem ovOpenai_id {env : String → Option String} (c : Config)
    (h : truthyGet env "OPENAI_API_KEY" = none) : ovOpenai env c = c := by
  unfold ovOpenai
  rw [h]

theorem ovAnthropic_id {env : String → Option String} (c : Config)
    (h : truthyGet env "ANTHROPIC_API_KEY" = none) : ovAnthropic env c = c := by
  unfold ovAnthropic
  rw [h]

theorem ovDeepseek_id {env : String → Option String} (c : Config)
    (h : truthyGet env "DEEPSEEK_API_KEY" = none) : ovDeepseek env c = c := by
  unfold ovDeepseek
  rw [h]

theorem ovGemini_id {env : String → Option String} (c : Config)
    (h : truthyGet env "GEMINI_API_KEY" = none) : ovGemini env c = c := by
  unfold ovGemini
  rw [h]

theorem ovZhipu_id {env : String → Option String} (c : Config)
    (h1 : truthyGet env "ZHIPU_API_KEY" = none)
    (h2 : truthyGet env "ZHIPUAI_API_KEY" = none) : ovZhipu env c = c := by
  unfold ovZhipu
  rw [h1, h2]
  rfl

theorem ovModel_id {env : String → Option String} (c : Config)
    (h1 : truthyGet env "AGENT_MODEL" = none)
    (h2 : truthyGet env "MODEL" = none) : ovModel env c = c := by
  unfold ovModel
  rw [h1, h2]
  rfl

theorem ovWorkspace_id {env : String → Option String} (c : Config)
    (h : truthyGet env "AGENT_WORKSPACE" = none) : ovWorkspace env c = c := by
  unfold ovWorkspace
  rw [h]

theorem ovTelegramToken_id {env : String → Option String} (c : Config)
    (h : truthyGet env "TELEGRAM_TOKEN" = none) : ovTelegramToken env c = c := by
  unfold ovTelegramToken
  rw [h]

theorem ovAllowedUsers_id {env : String → Option String} (c : Config)
    (h1 : truthyGet env "ALLOWED_USERS" = none)
    (h2 : truthyGet env "TELEGRAM_ALLOWED_USERS" = none) :
    ovAllowedUsers env c = c := by
  unfold ovAllowedUsers
  rw [h1, h2]
  rfl

theorem ovWhatsappEnabled_id {env : String → Option String} (c : Config)
    (h : unsetOrEmpty env "WHATSAPP_ENABLED") : ovWhatsappEnabled env c = c := by
  unfold ovWhatsappEnabled
  rcases h with h | h <;> rw [h] <;> rfl

theorem ovWhatsappAllowed_id {env : String → Option String} (c : Config)
    (h : truthyGet env "WHATSAPP_ALLOWED_NUMBERS" = none) :
    ovWhatsappAllowed env c = c := by
  unfold ovWhatsappAllowed
  rw [h]

theorem ovChannels_id {env : String → Option String} (c : Config)
    (h : truthyGet env "CHANNELS" = none) : ovChannels env c = c := by
  unfold ovChannels
  rw [h]

theorem ovAlexzo_id {env : String → Option String} (c : Config)
    (h : truthyGet env "ALEXZO_API_KEY" = none) : ovAlexzo env c = c := by
  unfold ovAlexzo
  rw [h]

theorem ovGroq_set {env : String → Option String} (c : Config) {k : String}
    (h : orTruthy (truthyGet env "GROQ_API_KEY")
      (truthyGet env "LITELLM_GROQ_API_KEY") = some k) :
    (ovGroq env c).providers.groq.api_key = some k := by
  unfold ovGroq
  rw [h]

theorem ovTelegramToken_set {env : String → Option String} (c : Config)
    {v : String} (h : truthyGet env "TELEGRAM_TOKEN" = some v) :
    (ovTelegramToken env c).channels.telegram.token = v ∧
      (ovTelegramToken env c).channels.telegram.enabled = true := by
  unfold ovTelegramToken
  rw [h]
  exact ⟨rfl, rfl⟩

/-- C5: if the environment variable TELEGRAM_TOKEN is set and non-empty,
the Config returned by apply_env_overrides has the telegram channel token
equal to that value and the telegram channel enabled flag equal to true,
regardless of what the resolved source specified for either field. -/
theorem c5_telegram_token_override (env : String → Option String) (cfg : Config)
    (v : String) (hset : env "TELEGRAM_TOKEN" = some v) (hne : v ≠ "") :
    (apply_env_overrides env cfg).channels.telegram.token = v ∧
      (apply_env_overrides env cfg).channels.telegram.enabled = true := by
  have ht := truthyGet_some hset hne
  unfold apply_env_overrides
  constructor
  · rw [fr_ovAlexzo_channels, fr_ovChannels_tg_token,
      fr_ovWhatsappAllowed_channels_telegram, fr_ovWhatsappEnabled_channels_telegram,
      fr_ovAllowedUsers_channels_telegram_token]
    exact (ovTelegramToken_set _ ht).1
  · rw [fr_ovAlexzo_channels]
    apply ovChannels_tg_enabled
    rw [fr_ovWhatsappAllowed_channels_telegram, fr_ovWhatsappEnabled_channels_telegram,
      fr_ovAllowedUsers_channels_telegram_enabled]
    exact (ovTelegramToken_set _ ht).2

/-- Witness for C5 at a concrete environment and the default Config. -/
theorem c5_telegram_token_override_witness :
    (apply_env_overrides
        (fun v => if v = "TELEGRAM_TOKEN" then some "abc123" else none)
        Config.default).channels.telegram.token = "abc123" ∧
      (apply_env_overrides
        (fun v => if v = "TELEGRAM_TOKEN" then some "abc123" else none)
        Config.default).channels.telegram.enabled = true :=
  c5_telegram_token_override _ Config.default "abc123" (by decide) (by decide)

/-- C6: the Groq provider key aliases are consulted in a fixed priority
order: a set and non-empty GROQ_API_KEY wins whatever
LITELLM_GROQ_API_KEY holds, and LITELLM_GROQ_API_KEY takes effect exactly
when GROQ_API_KEY is unset or empty. -/
theorem c6_groq_alias_priority (env : String → Option String) (cfg : Config)
    (x y : String) :
    (env "GROQ_API_KEY" = some x → x ≠ "" →
      (apply_env_overrides env cfg).providers.groq.api_key = some x) ∧
    (unsetOrEmpty env "GROQ_API_KEY" → env "LITELLM_GROQ_API_KEY" = some y →
      y ≠ "" →
      (apply_env_overrides env cfg).providers.groq.api_key = some y) := by
  constructor
  · intro h hx
    have ht : orTruthy (truthyGet env "GROQ_API_KEY")
        (truthyGet env "LITELLM_GROQ_API_KEY") = some x := by
      rw [truthyGet_some h hx]
      rfl
    unfold apply_env_overrides
    rw [fr_ovAlexzo_providers, fr_ovChannels_providers,
      fr_ovWhatsappAllowed_providers, fr_ovWhatsappEnabled_providers,
      fr_ovAllowedUsers_providers, fr_ovTelegramToken_providers,
      fr_ovWorkspace_providers, fr_ovModel_providers, fr_ovZhipu_providers_groq,
      fr_ovGemini_providers_groq, fr_ovDeepseek_providers_groq,
      fr_ovAnthropic_providers_groq, fr_ovOpenai_providers_groq,
      fr_ovOpenrouter_providers_groq]
    exact ovGroq_set cfg ht
  · intro h1 h2 hy
    have ht : orTruthy (truthyGet env "GROQ_API_KEY")
        (truthyGet env "LITELLM_GROQ_API_KEY") = some y := by
      rw [truthyGet_none h1, truthyGet_some h2 hy]
      rfl
    unfold apply_env_overrides
    rw [fr_ovAlexzo_providers, fr_ovChannels_providers,
      fr_ovWhatsappAllowed_providers, fr_ovWhatsappEnabled_providers,
      fr_ovAllowedUsers_providers, fr_ovTelegramToken_providers,
      fr_ovWorkspace_providers, fr_ovModel_providers, fr_ovZhipu_providers_groq,
      fr_ovGemini_providers_groq, fr_ovDeepseek_providers_groq,
      fr_ovAnthropic_providers_groq, fr_ovOpenai_providers_groq,
      fr_ovOpenrouter_providers_groq]
    exact ovGroq_set cfg ht

/-- Witness for C6: with both aliases set, the first wins; with only the
second set, the second takes effect. -/
theorem c6_groq_alias_priority_witness :
    (apply_env_overrides
        (fun v => if v = "GROQ_API_KEY" then some "x"
          else if v = "LITELLM_GROQ_API_KEY" then some "y" else none)
        Config.default).providers.groq.api_key = some "x" ∧
      (apply_env_overrides
        (fun v => if v = "LITELLM_GROQ_API_KEY" then some "y" else none)
        Config.default).providers.groq.api_key = some "y" :=
  ⟨(c6_groq_alias_priority _ Config.default "x" "y").1 (by decide) (by decide),
   (c6_groq_alias_priority _ Config.default "x" "y").2 (Or.inl (by decide))
     (by decide) (by decide)⟩

/-- C7: apply_env_overrides never clears a field: for every overridable
field, if every environment variable mapped to that field is unset or
empty, the field keeps exactly its prior value; and with no recognized
override variable set, the Config is returned entirely unchanged. -/
theorem c7_overrides_never_clear (env : String → Option String) (cfg : Config) :
    (unsetOrEmpty env "GROQ_API_KEY" → unsetOrEmpty env "LITELLM_GROQ_API_KEY" →
      (apply_env_overrides env cfg).providers.groq = cfg.providers.groq) ∧
    (unsetOrEmpty env "OPENROUTER_API_KEY" →
      (apply_env_overrides env cfg).providers.openrouter = cfg.providers.openrouter) ∧
    (unsetOrEmpty env "OPENAI_API_KEY" →
      (apply_env_overrides env cfg).providers.openai = cfg.providers.openai) ∧
    (unsetOrEmpty env "ANTHROPIC_API_KEY" →
      (apply_env_overrides env cfg).providers.anthropic = cfg.providers.anthropic) ∧
    (unsetOrEmpty env "DEEPSEEK_API_KEY" →
      (apply_env_overrides env cfg).providers.deepseek = cfg.providers.deepseek) ∧
    (unsetOrEmpty env "GEMINI_API_KEY" →
      (apply_env_overrides env cfg).providers.gemini = cfg.providers.gemini) ∧
    (unsetOrEmpty env "ZHIPU_API_KEY" → unsetOrEmpty env "ZHIPUAI_API_KEY" →
      (apply_env_overrides env cfg).providers.zhipu = cfg.providers.zhipu) ∧
    (unsetOrEmpty env "AGENT_MODEL" → unsetOrEmpty env "MODEL" →
      (apply_env_overrides env cfg).agents.defaults.model
        = cfg.agents.defaults.model) ∧
    (unsetOrEmpty env "AGENT_WORKSPACE" →
      (apply_env_overrides env cfg).agents.defaults.workspace
        = cfg.agents.defaults.workspace) ∧
    (unsetOrEmpty env "TELEGRAM_TOKEN" →
      (apply_env_overrides env cfg).channels.telegram.token
        = cfg.channels.telegram.token) ∧
    (unsetOrEmpty env "TELEGRAM_TOKEN" → unsetOrEmpty env "CHANNELS" →
      (apply_env_overrides env cfg).channels.telegram.enabled
        = cfg.channels.telegram.enabled) ∧
    (unsetOrEmpty env "ALLOWED_USERS" → unsetOrEmpty env "TELEGRAM_ALLOWED_USERS" →
      (apply_env_overrides env cfg).channels.telegram.allow_from
        = cfg.channels.telegram.allow_from) ∧
    (unsetOrEmpty env "WHATSAPP_ENABLED" → unsetOrEmpty env "CHANNELS" →
      (apply_env_overrides env cfg).channels.whatsapp.enabled
        = cfg.channels.whatsapp.enabled) ∧
    (unsetOrEmpty env "WHATSAPP_ALLOWED_NUMBERS" →
      (apply_env_overrides env cfg).channels.whatsapp.allow_from
        = cfg.channels.whatsapp.allow_from) ∧
    (unsetOrEmpty env "ALEXZO_API_KEY" →
      (apply_env_overrides env cfg).tools.web.search.api_key
        = cfg.tools.web.search.api_key) ∧
    ((∀ v ∈ recognizedVars, unsetOrEmpty env v) →
      apply_env_overrides env cfg = cfg) := by
  refine ⟨?_, ?_, ?_, ?_, ?_, ?_, ?_, ?_, ?_, ?_, ?_, ?_, ?_, ?_, ?_, ?_⟩
  · intro h1 h2
    unfold apply_env_overrides
    rw [fr_ovAlexzo_providers, fr_ovChannels_providers,
      fr_ovWhatsappAllowed_providers, fr_ovWhatsappEnabled_providers,
      fr_ovAllowedUsers_providers, fr_ovTelegramToken_providers,
      fr_ovWorkspace_providers, fr_ovModel_providers, fr_ovZhipu_providers_groq,
      fr_ovGemini_providers_groq, fr_ovDeepseek_providers_groq,
      fr_ovAnthropic_providers_groq, fr_ovOpenai_providers_groq,
      fr_ovOpenrouter_providers_groq,
      ovGroq_id cfg (truthyGet_none h1) (truthyGet_none h2)]
  · intro h
    unfold apply_env_overrides
    rw [fr_ovAlexzo_providers, fr_ovChannels_providers,
      fr_ovWhatsappAllowed_providers, fr_ovWhatsappEnabled_providers,
      fr_ovAllowedUsers_providers, fr_ovTelegramToken_providers,
      fr_ovWorkspace_providers, fr_ovModel_providers,
      fr_ovZhipu_providers_openrouter, fr_ovGemini_providers_openrouter,
      fr_ovDeepseek_providers_openrouter, fr_ovAnthropic_providers_openrouter,
      fr_ovOpenai_providers_openrouter,
      ovOpenrouter_id _ (truthyGet_none h), fr_ovGroq_providers_openrouter]
  · intro h
    unfold apply_env_overrides
    rw [fr_ovAlexzo_providers, fr_ovChannels_providers,
      fr_ovWhatsappAllowed_providers, fr_ovWhatsappEnabled_providers,
      fr_ovAllowedUsers_providers, fr_ovTelegramToken_providers,
      fr_ovWorkspace_providers, fr_ovModel_providers,
      fr_ovZhipu_providers_openai, fr_ovGemini_providers_openai,
      fr_ovDeepseek_providers_openai, fr_ovAnthropic_providers_openai,
      ovOpenai_id _ (truthyGet_none h), fr_ovOpenrouter_providers_openai,
      fr_ovGroq_providers_openai]
  · intro h
    unfold apply_env_overrides
    rw [fr_ovAlexzo_providers, fr_ovChannels_providers,
      fr_ovWhatsappAllowed_providers, fr_ovWhatsappEnabled_providers,
      fr_ovAllowedUsers_providers, fr_ovTelegramToken_providers,
      fr_ovWorkspace_providers, fr_ovModel_providers,
      fr_ovZhipu_providers_anthropic, fr_ovGemini_providers_anthropic,
      fr_ovDeepseek_providers_anthropic, ovAnthropic_id _ (truthyGet_none h),
      fr_ovOpenai_providers_anthropic, fr_ovOpenrouter_providers_anthropic,
      fr_ovGroq_providers_anthropic]
  · intro h
    unfold apply_env_overrides
    rw [fr_ovAlexzo_providers, fr_ovChannels_providers,
      fr_ovWhatsappAllowed_providers, fr_ovWhatsappEnabled_providers,
      fr_ovAllowedUsers_providers, fr_ovTelegramToken_providers,
      fr_ovWorkspace_providers, fr_ovModel_providers,
      fr_ovZhipu_providers_deepseek, fr_ovGemini_providers_deepseek,
      ovDeepseek_id _ (truthyGet_none h), fr_ovAnthropic_providers_deepseek,
      fr_ovOpenai_providers_deepseek, fr_ovOpenrouter_providers_deepseek,
      fr_ovGroq_providers_deepseek]
  · intro h
    unfold apply_env_overrides
    rw [fr_ovAlexzo_providers, fr_ovChannels_providers,
      fr_ovWhatsappAllowed_providers, fr_ovWhatsappEnabled_providers,
      fr_ovAllowedUsers_providers, fr_ovTelegramToken_providers,
      fr_ovWorkspace_providers, fr_ovModel_providers,
      fr_ovZhipu_providers_gemini, ovGemini_id _ (truthyGet_none h),
      fr_ovDeepseek_providers_gemini, fr_ovAnthropic_providers_gemini,
      fr_ovOpenai_providers_gemini, fr_ovOpenrouter_providers_gemini,
      fr_ovGroq_providers_gemini]
  · intro h1 h2
    unfold apply_env_overrides
    rw [fr_ovAlexzo_providers, fr_ovChannels_providers,
      fr_ovWhatsappAllowed_providers, fr_ovWhatsappEnabled_providers,
      fr_ovAllowedUsers_providers, fr_ovTelegramToken_providers,
      fr_ovWorkspace_providers, fr_ovModel_providers,
      ovZhipu_id _ (truthyGet_none h1) (truthyGet_none h2),
      fr_ovGemini_providers_zhipu, fr_ovDeepseek_providers_zhipu,
      fr_ovAnthropic_providers_zhipu, fr_ovOpenai_providers_zhipu,
      fr_ovOpenrouter_providers_zhipu, fr_ovGroq_providers_zhipu]
  · intro h1 h2
    unfold apply_env_overrides
    rw [fr_ovAlexzo_agents, fr_ovChannels_agents, fr_ovWhatsappAllowed_agents,
      fr_ovWhatsappEnabled_agents, fr_ovAllowedUsers_agents,
      fr_ovTelegramToken_agents, fr_ovWorkspace_agents_defaults_model,
      ovModel_id _ (truthyGet_none h1) (truthyGet_none h2), fr_ovZhipu_agents,
      fr_ovGemini_agents, fr_ovDeepseek_agents, fr_ovAnthropic_agents,
      fr_ovOpenai_agents, fr_ovOpenrouter_agents, fr_ovGroq_agents]
  · intro h
    unfold apply_env_overrides
    rw [fr_ovAlexzo_agents, fr_ovChannels_agents, fr_ovWhatsappAllowed_agents,
      fr_ovWhatsappEnabled_agents, fr_ovAllowedUsers_agents,
      fr_ovTelegramToken_agents, ovWorkspace_id _ (truthyGet_none h),
      fr_ovModel_agents_defaults_workspace, fr_ovZhipu_agents,
      fr_ovGemini_agents, fr_ovDeepseek_agents, fr_ovAnthropic_agents,
      fr_ovOpenai_agents, fr_ovOpenrouter_agents, fr_ovGroq_agents]
  · intro h
    unfold apply_env_overrides
    rw [fr_ovAlexzo_channels, fr_ovChannels_tg_token,
      fr_ovWhatsappAllowed_channels_telegram, fr_ovWhatsappEnabled_channels_telegram,
      fr_ovAllowedUsers_channels_telegram_token,
      ovTelegramToken_id _ (truthyGet_none h), fr_ovWorkspace_channels,
      fr_ovModel_channels, fr_ovZhipu_channels, fr_ovGemini_channels,
      fr_ovDeepseek_channels, fr_ovAnthropic_channels, fr_ovOpenai_channels,
      fr_ovOpenrouter_channels, fr_ovGroq_channels]
  · intro h1 h2
    unfold apply_env_overrides
    rw [fr_ovAlexzo_channels, ovChannels_id _ (truthyGet_none h2),
      fr_ovWhatsappAllowed_channels_telegram, fr_ovWhatsappEnabled_channels_telegram,
      fr_ovAllowedUsers_channels_telegram_enabled,
      ovTelegramToken_id _ (truthyGet_none h1), fr_ovWorkspace_channels,
      fr_ovModel_channels, fr_ovZhipu_channels, fr_ovGemini_channels,
      fr_ovDeepseek_channels, fr_ovAnthropic_channels, fr_ovOpenai_channels,
      fr_ovOpenrouter_channels, fr_ovGroq_channels]
  · intro h1 h2
    unfold apply_env_overrides
    rw [fr_ovAlexzo_channels, fr_ovChannels_tg_allow,
      fr_ovWhatsappAllowed_channels_telegram, fr_ovWhatsappEnabled_channels_telegram,
      ovAllowedUsers_id _ (truthyGet_none h1) (truthyGet_none h2),
      fr_ovTelegramToken_channels_telegram_allow_from, fr_ovWorkspace_channels,
      fr_ovModel_channels, fr_ovZhipu_channels, fr_ovGemini_channels,
      fr_ovDeepseek_channels, fr_ovAnthropic_channels, fr_ovOpenai_channels,
      fr_ovOpenrouter_channels, fr_ovGroq_channels]
  · intro h1 h2
    unfold apply_env_overrides
    rw [fr_ovAlexzo_channels, ovChannels_id _ (truthyGet_none h2),
      fr_ovWhatsappAllowed_channels_whatsapp_enabled, ovWhatsappEnabled_id _ h1,
      fr_ovAllowedUsers_channels_whatsapp, fr_ovTelegramToken_channels_whatsapp,
      fr_ovWorkspace_channels, fr_ovModel_channels, fr_ovZhipu_channels,
      fr_ovGemini_channels, fr_ovDeepseek_channels, fr_ovAnthropic_channels,
      fr_ovOpenai_channels, fr_ovOpenrouter_channels, fr_ovGroq_channels]
  · intro h
    unfold apply_env_overrides
    rw [fr_ovAlexzo_channels, fr_ovChannels_wa_allow,
      ovWhatsappAllowed_id _ (truthyGet_none h),
      fr_ovWhatsappEnabled_channels_whatsapp_allow_from,
      fr_ovAllowedUsers_channels_whatsapp, fr_ovTelegramToken_channels_whatsapp,
      fr_ovWorkspace_channels, fr_ovModel_channels, fr_ovZhipu_channels,
      fr_ovGemini_channels, fr_ovDeepseek_channels, fr_ovAnthropic_channels,
      fr_ovOpenai_channels, fr_ovOpenrouter_channels, fr_ovGroq_channels]
  · intro h
    unfold apply_env_overrides
    rw [ovAlexzo_id _ (truthyGet_none h), fr_ovChannels_tools,
      fr_ovWhatsappAllowed_tools, fr_ovWhatsappEnabled_tools,
      fr_ovAllowedUsers_tools, fr_ovTelegramToken_tools, fr_ovWorkspace_tools,
      fr_ovModel_tools, fr_ovZhipu_tools, fr_ovGemini_tools, fr_ovDeepseek_tools,
      fr_ovAnthropic_tools, fr_ovOpenai_tools, fr_ovOpenrouter_tools,
      fr_ovGroq_tools]
  · intro h
    unfold apply_env_overrides
    rw [ovGroq_id cfg (truthyGet_none (h _ (by decide)))
        (truthyGet_none (h _ (by decide)))]
    rw [ovOpenrouter_id cfg (truthyGet_none (h "OPENROUTER_API_KEY" (by decide)))]
    rw [ovOpenai_id cfg (truthyGet_none (h "OPENAI_API_KEY" (by decide)))]
    rw [ovAnthropic_id cfg (truthyGet_none (h "ANTHROPIC_API_KEY" (by decide)))]
    rw [ovDeepseek_id cfg (truthyGet_none (h "DEEPSEEK_API_KEY" (by decide)))]
    rw [ovGemini_id cfg (truthyGet_none (h "GEMINI_API_KEY" (by decide)))]
    rw [ovZhipu_id cfg (truthyGet_none (h "ZHIPU_API_KEY" (by decide)))
        (truthyGet_none (h "ZHIPUAI_API_KEY" (by decide)))]
    rw [ovModel_id cfg (truthyGet_none (h "AGENT_MODEL" (by decide)))
        (truthyGet_none (h "MODEL" (by decide)))]
    rw [ovWorkspace_id cfg (truthyGet_none (h "AGENT_WORKSPACE" (by decide)))]
    rw [ovTelegramToken_id cfg (truthyGet_none (h "TELEGRAM_TOKEN" (by decide)))]
    rw [ovAllowedUsers_id cfg (truthyGet_none (h "ALLOWED_USERS" (by decide)))
        (truthyGet_none (h "TELEGRAM_ALLOWED_USERS" (by decide)))]
    rw [ovWhatsappEnabled_id cfg (h "WHATSAPP_ENABLED" (by decide))]
    rw [ovWhatsappAllowed_id cfg
        (truthyGet_none (h "WHATSAPP_ALLOWED_NUMBERS" (by decide)))]
    rw [ovChannels_id cfg (truthyGet_none (h "CHANNELS" (by decide)))]
    rw [ovAlexzo_id cfg (truthyGet_none (h "ALEXZO_API_KEY" (by decide)))]

/-- Witness for C7: an empty environment leaves the default Config
entirely unchanged. -/
theorem c7_overrides_never_clear_witness :
    apply_env_overrides (fun _ => none) Config.default = Config.default :=
  (c7_overrides_never_clear (fun _ => none)
      Config.default).2.2.2.2.2.2.2.2.2.2.2.2.2.2.2
    (fun _ _ => Or.inl rfl)

/-- C3 counterexample: the round trip toWire(toInternal(k)) is not the
identity on every key of ASCII letters and digits with no adjacent
uppercase runs. The key A maps to a (a leading uppercase letter is
lowercased with no underscore inserted), and the key aB1c maps to aB1C
(str.title uppercases a letter that follows a digit). -/
theorem c3_counterexample :
    ("A".data.all (fun c => c.isUpper || c.isLower || c.isDigit) = true ∧
      noAdjUpper "A".data = true ∧
      snake_to_camel (camel_to_snake "A") ≠ "A") ∧
    ("aB1c".data.all (fun c => c.isUpper || c.isLower || c.isDigit) = true ∧
      noAdjUpper "aB1c".data = true ∧
      snake_to_camel (camel_to_snake "aB1c") ≠ "aB1c") := by
  refine ⟨⟨by decide, by decide, by decide⟩, ⟨by decide, by decide, by decide⟩⟩

/-- C3 (amended): snake_to_camel (camel_to_snake k) = k for every key of
ASCII letters and digits with no adjacent uppercase runs that moreover does
not begin with an uppercase letter and has no lowercase letter immediately
preceded by a digit at or after its first uppercase letter. -/
theorem c3_roundtrip_amended (s : String) (h : roundOk s = true) :
    snake_to_camel (camel_to_snake s) = s := by
  cases s with
  | mk data => exact congrArg String.mk (roundtripL data h)

/-- Witness for the amended C3 at a key the loader actually handles. -/
theorem c3_roundtrip_amended_witness :
    roundOk "restrictToWorkspace" = true ∧
      snake_to_camel (camel_to_snake "restrictToWorkspace")
        = "restrictToWorkspace" :=
  ⟨by decide, c3_roundtrip_amended "restrictToWorkspace" (by decide)⟩

/-- C10: camel_to_snake is not injective on ASCII identifier keys: the
distinct wire keys fooBar and FooBar share the internal image foo_bar, and
convert_keys applied to a mapping containing both yields a single-key
mapping, keeping only the value of the later key. -/
theorem c10_camel_to_snake_not_injective :
    camel_to_snake "fooBar" = "foo_bar" ∧
      camel_to_snake "FooBar" = "foo_bar" ∧
      "fooBar" ≠ "FooBar" ∧
      convert_keys (Json.obj [("fooBar", Json.num 1), ("FooBar", Json.num 2)])
        = Json.obj [("foo_bar", Json.num 2)] :=
  ⟨by decide, by decide, by decide, rfl⟩

theorem isPrefixOf_append_self (l t : List Char) : l.isPrefixOf (l ++ t) = true := by
  induction l with
  | nil => simp [List.isPrefixOf]
  | cons c rest ih => simp [List.isPrefixOf, ih]

theorem isErrorText_of_data {s : String} {t : List Char}
    (h : s.data = "Error".data ++ t) : isErrorText s = true := by
  unfold isErrorText
  rw [h]
  exact isPrefixOf_append_self _ _

theorem isErrorText_errorSpace (msg : String) :
    isErrorText ("Error: " ++ msg) = true := by
  refine @isErrorText_of_data _ (':' :: ' ' :: msg.data) ?_
  rw [String.data_append]
  rfl

/-- C9: BigQueryTool.execute is a total function into text (it never
raises); an exception raised anywhere inside the try block is converted to
the text Error: followed by the message, and a missing required parameter
or an unknown operation name also yields text beginning with Error. -/
theorem c9_execute_error_boundary (e : BQEnv) (operation : String)
    (kwargs : List (String × PyVal)) :
    (∀ msg, executeTry e operation kwargs = .error msg →
      execute e operation kwargs = "Error: " ++ msg) ∧
    (missingParam operation kwargs = true ∨ unknownOp operation = true →
      isErrorText (execute e operation kwargs) = true) := by
  constructor
  · intro msg h
    unfold execute
    rw [h]
  · intro h
    match hg : e.getClient with
    | .error m =>
      have hrun : executeTry e operation kwargs = .error m := by
        unfold executeTry
        rw [hg]
        rfl
      unfold execute
      rw [hrun]
      exact isErrorText_errorSpace m
    | .ok client =>
      rcases h with hm | hu
      · simp only [missingParam, Bool.or_eq_true, Bool.and_eq_true,
          decide_eq_true_eq] at hm
        rcases hm with (⟨hop, hq⟩ | ⟨hop, hq⟩) | ⟨hop, hq⟩
        · subst hop
          have hrun : executeTry e "query" kwargs
              = .ok "Error: 'query' parameter is required for query operation" := by
            unfold executeTry
            rw [hg]
            simp [hq]
          unfold execute
          rw [hrun]
          decide
        · subst hop
          have hrun : executeTry e "insert" kwargs
              = .ok "Error: 'dataset_id', 'table_id', and 'rows' are required for insert operation" := by
            unfold executeTry
            rw [hg]
            simp [hq]
          unfold execute
          rw [hrun]
          decide
        · subst hop
          have hrun : executeTry e "list_tables" kwargs
              = .ok "Error: 'dataset_id' is required for list_tables operation" := by
            unfold executeTry
            rw [hg]
            simp [hq]
          unfold execute
          rw [hrun]
          decide
      · simp only [unknownOp, Bool.not_eq_true', Bool.or_eq_false_iff,
          decide_eq_false_iff_not] at hu
        obtain ⟨⟨⟨h1, h2⟩, h3⟩, h4⟩ := hu
        have hrun : executeTry e operation kwargs
            = .ok ("Error: Unknown operation '" ++ operation ++ "'") := by
          unfold executeTry
          rw [hg]
          simp [h1, h2, h3, h4]
        unfold execute
        rw [hrun]
        refine @isErrorText_of_data _
          (": Unknown operation '".data ++ (operation.data ++ "'".data)) ?_
        rw [String.data_append, String.data_append]
        rfl

/-- Witness for C9: a missing credentials file surfaces as Error text on a
query call, and an unknown operation yields Error text with a working
client. -/
theorem c9_execute_error_boundary_witness :
    execute ⟨.error "BigQuery key not found", fun _ => "[]", fun _ => "[]",
        fun _ => "[]"⟩ "query" []
      = "Error: BigQuery key not found" ∧
    isErrorText (execute ⟨.ok ⟨fun _ => .ok [], fun _ _ _ => .ok [], .ok [],
        fun _ => .ok []⟩, fun _ => "[]", fun _ => "[]", fun _ => "[]"⟩
      "frobnicate" []) = true :=
  ⟨(c9_execute_error_boundary _ "query" []).1 "BigQuery key not found" rfl,
   (c9_execute_error_boundary _ "frobnicate" []).2 (Or.inr (by decide))⟩

theorem jLookup_none_of_hasKey_false {k : String} {kvs : List (String × Json)}
    (h : jHasKey k kvs = false) : jLookup k kvs = none := by
  induction kvs with
  | nil => rfl
  | cons p rest ih =>
    obtain ⟨k', v⟩ := p
    simp only [jHasKey, Bool.or_eq_false_iff, decide_eq_false_iff_not] at h
    simp only [jLookup, if_neg h.1]
    exact ih h.2

theorem jLookup_some_of_hasKey {k : String} {kvs : List (String × Json)}
    (h : jHasKey k kvs = true) : ∃ v, jLookup k kvs = some v := by
  induction kvs with
  | nil => simp [jHasKey] at h
  | cons p rest ih =>
    obtain ⟨k', v⟩ := p
    by_cases he : k' = k
    · exact ⟨v, by simp [jLookup, he]⟩
    · simp only [jHasKey, Bool.or_eq_true, decide_eq_true_eq] at h
      rcases h with h | h
      · exact absurd h he
      · obtain ⟨w, hw⟩ := ih h
        exact ⟨w, by simp [jLookup, he, hw]⟩

/-- C4 counterexample: migrate_config is not the pure move-or-leave
transformation on every raw document: on the scalar document 5 (and
likewise on any non-mapping document, where the claim demands the document
come back unchanged) the code raises AttributeError from data.get. -/
theorem c4_counterexample :
    migrate_config (Json.num 5) = .error PyErr.attributeError ∧
      migrate_config (Json.obj [("tools", Json.num 1)])
        = .error PyErr.attributeError :=
  ⟨rfl, rfl⟩

/-- C4 (amended): on every raw document that is a mapping whose tools entry
(if present) is a mapping whose exec entry (if present) is a mapping,
migrate_config succeeds and is exactly the move rule of the claim: the
nested restriction flag moves to the top-level tools mapping exactly when
it is present and the top-level key absent (the nested key being removed),
while in every other case, in particular when the top-level key already
exists, the document is returned unchanged. -/
theorem c4_migrate_amended (d : Json) (h : toolsShaped d = true) :
    migrate_config d = .ok (migrateSpec d) := by
  match d with
  | Json.null | Json.bool _ | Json.num _ | Json.str _ | Json.arr _ =>
    simp [toolsShaped] at h
  | Json.obj kvs =>
    match hl : jLookup "tools" kvs with
    | none =>
      simp [migrate_config, migrateSpec, hl, pyIn, jHasKey, jLookup]
    | some (Json.null) | some (Json.bool _) | some (Json.num _)
    | some (Json.str _) | some (Json.arr _) =>
      simp [toolsShaped, hl] at h
    | some (Json.obj tkvs) =>
      match he : jLookup "exec" tkvs with
      | none =>
        simp [migrate_config, migrateSpec, hl, he, pyIn, jHasKey]
      | some (Json.null) | some (Json.bool _) | some (Json.num _)
      | some (Json.str _) | some (Json.arr _) =>
        simp [toolsShaped, hl, he] at h
      | some (Json.obj ekvs) =>
        match hr : jHasKey "restrictToWorkspace" ekvs with
        | false =>
          simp [migrate_config, migrateSpec, hl, he, pyIn, hr,
            jLookup_none_of_hasKey_false hr]
        | true =>
          obtain ⟨v, hv⟩ := jLookup_some_of_hasKey hr
          match ht : jHasKey "restrictToWorkspace" tkvs with
          | true =>
            simp [migrate_config, migrateSpec, hl, he, hv, pyIn, hr, ht]
          | false =>
            simp [migrate_config, migrateSpec, hl, he, hv, pyIn, pyPop, hr, ht]

/-- Witness for the amended C4 at the legacy document of the spec. -/
theorem c4_migrate_amended_witness :
    toolsShaped (Json.obj [("tools", Json.obj [("exec",
        Json.obj [("restrictToWorkspace", Json.bool false)])])]) = true ∧
      migrate_config (Json.obj [("tools", Json.obj [("exec",
          Json.obj [("restrictToWorkspace", Json.bool false)])])])
        = .ok (migrateSpec (Json.obj [("tools", Json.obj [("exec",
          Json.obj [("restrictToWorkspace", Json.bool false)])])])) :=
  ⟨by decide, c4_migrate_amended _ (by decide)⟩

theorem tryPaths_isOk (st : SysState) (ps : List String)
    (h : ∀ p ∈ ps, st.fs p ≠ FileState.unreadable ∧
      ∀ c j, st.fs p = FileState.readable c → st.jparse c = some j →
        (migrate_config j).isOk = true) :
    ∃ r, tryPaths st ps = .ok r := by
  induction ps with
  | nil => exact ⟨none, rfl⟩
  | cons p rest ih =>
    have hrest := fun q hq => h q (List.mem_cons_of_mem p hq)
    obtain ⟨hnu, hread⟩ := h p (List.mem_cons_self p rest)
    have hfile : ∃ r, fileSource st p = .ok r := by
      match hfs : st.fs p with
      | FileState.absent => exact ⟨none, by simp only [fileSource, hfs]⟩
      | FileState.unreadable => exact absurd hfs hnu
      | FileState.readable c =>
        match hjp : st.jparse c with
        | none => exact ⟨none, by simp only [fileSource, hfs, hjp]⟩
        | some j =>
          match hmig : migrate_config j with
          | .error e =>
            have := hread c j hfs hjp
            rw [hmig] at this
            simp [Except.isOk, Except.toBool] at this
          | .ok d =>
            exact ⟨Config.model_validate (convert_keys d),
              by simp only [fileSource, hfs, hjp, hmig]⟩
    obtain ⟨r, hr⟩ := hfile
    match r with
    | none =>
      obtain ⟨r2, hr2⟩ := ih hrest
      refine ⟨r2, ?_⟩
      unfold tryPaths
      rw [hr]
      exact hr2
    | some c =>
      refine ⟨some c, ?_⟩
      unfold tryPaths
      rw [hr]

theorem tryPaths_all_abstain (st : SysState) (ps : List String)
    (h : ∀ p ∈ ps, fileSource st p = .ok none) :
    tryPaths st ps = .ok none := by
  induction ps with
  | nil => rfl
  | cons p rest ih =>
    unfold tryPaths
    rw [h p (List.mem_cons_self p rest)]
    exact ih fun q hq => h q (List.mem_cons_of_mem p hq)

/-- C1 counterexample: load_config does not return a Config on every
environment and file-system state. With the inline variable set to the
JSON text of a list, json.loads succeeds, and migrate_config raises an
uncaught AttributeError from data.get; with an existing but unreadable
home config file, open raises an uncaught OSError: neither malformed
source is skipped with a warning. -/
theorem c1_counterexample :
    load_config
      { env := fun v => if v = "NANOBOT_CONFIG" then some "[1]" else none,
        fs := fun _ => FileState.absent,
        jparse := fun s => if s = "[1]" then some (Json.arr [Json.num 1]) else none,
        home := "/home/user", writable := fun _ => true } none
      = .error PyErr.attributeError ∧
    load_config
      { env := fun _ => none,
        fs := fun p => if p = "/home/user/.nanobot/config.json"
          then FileState.unreadable else FileState.absent,
        jparse := fun _ => none,
        home := "/home/user", writable := fun _ => true } none
      = .error PyErr.oserror :=
  ⟨rfl, rfl⟩

/-- C1 (amended): load_config returns a Config and never raises provided
no candidate file exists but is unreadable and every candidate source whose
text parses parses to a document migration accepts (a mapping whose tools
entry and nested exec entry, when present, are mappings); under those
conditions every malformed candidate (unparseable or empty text, or a
document failing validation) is skipped, and when every source abstains the
result is the all-defaults Config with the environment overrides applied. -/
theorem c1_load_amended (st : SysState) (cp : Option String)
    (henv : ∀ raw j, truthyGet st.env "NANOBOT_CONFIG" = some raw →
      st.jparse raw = some j → (migrate_config j).isOk = true)
    (hfs : ∀ p ∈ candidatePaths st cp, st.fs p ≠ FileState.unreadable ∧
      ∀ c j, st.fs p = FileState.readable c → st.jparse c = some j →
        (migrate_config j).isOk = true) :
    (∃ cfg, load_config st cp = .ok cfg) ∧
    (envSource st = .ok none →
      (∀ p ∈ candidatePaths st cp, fileSource st p = .ok none) →
      load_config st cp = .ok (apply_env_overrides st.env Config.default)) := by
  constructor
  · have henvok : ∃ r, envSource st = .ok r := by
      match hg : truthyGet st.env "NANOBOT_CONFIG" with
      | none => exact ⟨none, by simp only [envSource, hg]⟩
      | some raw =>
        match hjp : st.jparse raw with
        | none => exact ⟨none, by simp only [envSource, hg, hjp]⟩
        | some j =>
          match hmig : migrate_config j with
          | .error e =>
            have := henv raw j hg hjp
            rw [hmig] at this
            simp [Except.isOk, Except.toBool] at this
          | .ok d =>
            exact ⟨Config.model_validate (convert_keys d),
              by simp only [envSource, hg, hjp, hmig]⟩
    obtain ⟨r, hr⟩ := henvok
    match r with
    | some c =>
      refine ⟨apply_env_overrides st.env c, ?_⟩
      unfold load_config
      rw [hr]
    | none =>
      obtain ⟨r2, hr2⟩ := tryPaths_isOk st (candidatePaths st cp) hfs
      match r2 with
      | some c =>
        refine ⟨apply_env_overrides st.env c, ?_⟩
        unfold load_config
        rw [hr, hr2]
      | none =>
        refine ⟨apply_env_overrides st.env Config.default, ?_⟩
        unfold load_config
        rw [hr, hr2]
  · intro he hall
    unfold load_config
    rw [he, tryPaths_all_abstain st _ hall]

/-- Witness for the amended C1: an empty environment and an empty file
system yield the all-defaults Config. -/
theorem c1_load_amended_witness :
    (∃ cfg, load_config
        { env := fun _ => none, fs := fun _ => FileState.absent,
          jparse := fun _ => none, home := "/home/user",
          writable := fun _ => true } none = .ok cfg) ∧
      load_config
        { env := fun _ => none, fs := fun _ => FileState.absent,
          jparse := fun _ => none, home := "/home/user",
          writable := fun _ => true } none
        = .ok (apply_env_overrides (fun _ => none) Config.default) := by
  have h := c1_load_amended
    { env := fun _ => none, fs := fun _ => FileState.absent,
      jparse := fun _ => none, home := "/home/user",
      writable := fun _ => true } none
    (fun raw j h1 _ => by simp [truthyGet] at h1)
    (fun p _ => ⟨by simp, fun c j hh _ => by simp at hh⟩)
  exact ⟨h.1, h.2 rfl (fun p _ => rfl)⟩

theorem envSource_congr (st1 st2 : SysState) (he : st1.env = st2.env)
    (hj : st1.jparse = st2.jparse) : envSource st1 = envSource st2 := by
  unfold envSource
  rw [he, hj]

theorem fileSource_congr (st1 st2 : SysState) (p : String)
    (hf : st1.fs p = st2.fs p) (hj : st1.jparse = st2.jparse) :
    fileSource st1 p = fileSource st2 p := by
  unfold fileSource
  rw [hf, hj]

/-- C2: when the inline-environment source abstains, an explicit path
excludes the default paths entirely (the result depends only on the file
system at that path), and with no explicit path the home default is tried
before config.json and the first fully successful candidate wins: a
malformed home file and a successful cwd candidate yield the Config of the
cwd candidate, with overrides applied. -/
theorem c2_source_precedence (st st2 : SysState) (p c0 : String) (cfg : Config)
    (habs : envSource st = .ok none)
    (henv2 : st2.env = st.env) (hjp2 : st2.jparse = st.jparse)
    (hfsp : st2.fs p = st.fs p)
    (hhome : st.fs (get_config_path st.home) = FileState.readable c0)
    (hbad : st.jparse c0 = none)
    (hcwd : fileSource st "config.json" = .ok (some cfg)) :
    load_config st2 (some p) = load_config st (some p) ∧
      load_config st none = .ok (apply_env_overrides st.env cfg) := by
  constructor
  · unfold load_config
    rw [envSource_congr st2 st henv2 hjp2, henv2]
    simp only [candidatePaths, tryPaths,
      fileSource_congr st2 st p hfsp hjp2]
  · have h1 : fileSource st (get_config_path st.home) = .ok none := by
      simp only [fileSource, hhome, hbad]
    unfold load_config
    rw [habs]
    simp only [candidatePaths, tryPaths, h1, hcwd]

/-- Witness for C2: with a malformed home file and a valid cwd file, the
resolver commits to the cwd candidate. -/
theorem c2_source_precedence_witness :
    load_config
        { env := fun _ => none,
          fs := fun q => if q = "config.json" then FileState.readable "good"
            else if q = "/home/user/.nanobot/config.json"
              then FileState.readable "bad" else FileState.absent,
          jparse := fun s => if s = "good"
            then some (Json.obj [("channels", Json.obj [("telegram",
              Json.obj [("token", Json.str "t")])])])
            else none,
          home := "/home/user", writable := fun _ => true } none
      = .ok (apply_env_overrides (fun _ => none)
          { providers := Config.default.providers,
            agents := Config.default.agents,
            channels := { telegram := { enabled := false, token := "t", allow_from := [] }, whatsapp := ChannelConfig.default },
            tools := Config.default.tools }) := by
  have h := c2_source_precedence
    { env := fun _ => none,
      fs := fun q => if q = "config.json" then FileState.readable "good"
        else if q = "/home/user/.nanobot/config.json"
          then FileState.readable "bad" else FileState.absent,
      jparse := fun s => if s = "good"
        then some (Json.obj [("channels", Json.obj [("telegram",
          Json.obj [("token", Json.str "t")])])])
        else none,
      home := "/home/user", writable := fun _ => true }
    { env := fun _ => none,
      fs := fun q => if q = "config.json" then FileState.readable "good"
        else if q = "/home/user/.nanobot/config.json"
          then FileState.readable "bad" else FileState.absent,
      jparse := fun s => if s = "good"
        then some (Json.obj [("channels", Json.obj [("telegram",
          Json.obj [("token", Json.str "t")])])])
        else none,
      home := "/home/user", writable := fun _ => true }
    "x" "bad"
    { providers := Config.default.providers,
      agents := Config.default.agents,
      channels := { telegram := { enabled := false, token := "t", allow_from := [] }, whatsapp := ChannelConfig.default },
      tools := Config.default.tools }
    rfl rfl rfl rfl rfl rfl rfl
  exact h.2

theorem keyShape_optStrJson (x : Option String) :
    keyShape (optStrJson x) = Json.null := by
  cases x <;> rfl

/-- C8: save_config writes, at the explicit path or the home default, the
camelCase conversion of the full model dump; the dump carries the complete
key skeleton (defaulted fields included, none omitted) whatever the Config
holds; and an unwritable target surfaces an error instead of being
swallowed. -/
theorem c8_save_config (st : SysState) (config : Config)
    (config_path : Option String) :
    (st.writable (targetPath st config_path) = true →
      save_config st config config_path
        = .ok (targetPath st config_path,
            convert_to_camel (Config.model_dump config))) ∧
    (st.writable (targetPath st config_path) = false →
      save_config st config config_path = .error PyErr.oserror) ∧
    keyShape (Config.model_dump config)
      = keyShape (Config.model_dump Config.default) := by
  refine ⟨?_, ?_, ?_⟩
  · intro h
    simp [save_config, h]
  · intro h
    simp [save_config, h]
  · obtain ⟨⟨⟨gk⟩, ⟨k1⟩, ⟨k2⟩, ⟨k3⟩, ⟨k4⟩, ⟨k5⟩, ⟨k6⟩⟩, ag, ch, r, ⟨⟨wk⟩⟩⟩ := config
    cases gk <;> cases k1 <;> cases k2 <;> cases k3 <;> cases k4 <;> cases k5 <;>
      cases k6 <;> cases wk <;> rfl

/-- Witness for C8: a writable and an unwritable target, at the default
home path. -/
theorem c8_save_config_witness :
    save_config
        { env := fun _ => none, fs := fun _ => FileState.absent,
          jparse := fun _ => none, home := "/home/user",
          writable := fun _ => true } Config.default none
      = .ok ("/home/user/.nanobot/config.json",
          convert_to_camel (Config.model_dump Config.default)) ∧
    save_config
        { env := fun _ => none, fs := fun _ => FileState.absent,
          jparse := fun _ => none, home := "/home/user",
          writable := fun _ => false } Config.default none
      = .error PyErr.oserror :=
  ⟨(c8_save_config _ Config.default none).1 rfl,
   (c8_save_config _ Config.default none).2.1 rfl⟩
